import Mathlib

/-!
# USBD_Audio: descriptor builder and buffer/transfer manager

A shallow embedding of `src/arduino/audio/USBD_Audio.cpp` and `USBD_Audio.h`.

* Byte memory is a total map from addresses to byte values; a pointer is an
  address and the address `0` is `nullptr`.
* `size_t` and `uint32_t` are 32 bits wide (the header pulls in the SAMD port
  configuration), `uint16_t` and `uint8_t` are reduced explicitly.
* The TinyUSB transport (`tud_audio_write`, `tud_audio_read`), the device
  allocator (`TinyUSBDevice.allocInterface`, `allocEndpoint`) and the interface
  registry (`TinyUSBDevice.addInterface`) are external collaborators; they are
  taken as parameters with an abstract state, and every call made to them is
  recorded in the result so that "is called / is not called" can be stated.
-/

namespace USBDAudio

/-! ## Machine integers and byte memory -/

/-- Width of `size_t` and of `uint32_t` on the target, as a modulus. -/
def SIZE_MOD : Nat := 2 ^ 32

/-- Conversion to `uint8_t`. -/
def u8 (x : Nat) : Nat := x % 256

/-- Conversion to `uint16_t`. -/
def u16 (x : Nat) : Nat := x % 65536

/-- Conversion to `uint32_t` / `size_t`. -/
def u32 (x : Nat) : Nat := x % SIZE_MOD

/-- Byte-addressed memory. -/
abbrev Mem := Nat → Nat

/-- Library `memcpy(dst, src, n)` where the source is a local array `src` of
`n = src.length` bytes. -/
def memcpy (mem : Mem) (dst : Nat) (src : List Nat) : Mem :=
  fun a => if dst ≤ a ∧ a < dst + src.length then src.getD (a - dst) 0 else mem a

/-- Library `memmove(dst, src, n)` inside one memory: the `n` source bytes are
read before any byte is written, so overlapping regions are handled. -/
def memmove (mem : Mem) (dst src n : Nat) : Mem :=
  fun a => if dst ≤ a ∧ a < dst + n then mem (src + (a - dst)) else mem a

/-! ## The transport boundary -/

/-- One call made to the transport. -/
inductive TransportCall where
  | write (buf : Nat) (len : Nat)
  | read (buf : Nat) (len : Nat)
  deriving DecidableEq, Repr

/-- The TinyUSB audio transport, which is not part of this repository.
`tud_audio_write st mem buf len` may look at the memory and answers the number
of bytes it accepted; `tud_audio_read st buf len` answers its return value
together with the bytes it stores at `buf`.  The length is handed over as the
`size_t` value the source passes; the prototypes are not under src. -/
structure Transport (σ : Type) where
  tud_audio_write : σ → Mem → Nat → Nat → Nat × σ
  tud_audio_read : σ → Nat → Nat → (Nat × List Nat) × σ

/-- What a call of `update` leaves behind. -/
structure UpdateResult (σ : Type) where
  ok : Bool
  mem : Mem
  txCount : Option Nat
  st : σ
  calls : List TransportCall

/-- Outbound half of `update(uint8_t*, size_t*, uint8_t*, size_t)`, lines 50-67.
`txCount` is the pointer argument: `none` is a null pointer and `some n` a
pointer to a cell holding `n`.  The guard of the source compares the pointer
`txCount` itself with `0`, not the pointed-to count. -/
def updateTx {σ : Type} (T : Transport σ) (st : σ) (mem : Mem) (txBuf : Nat)
    (txCount : Option Nat) : UpdateResult σ :=
  let ok := false
  match txCount with
  | none => ⟨ok, mem, txCount, st, []⟩
  | some n =>
    if txBuf ≠ 0 then
      let w := T.tud_audio_write st mem txBuf n
      let bytesWritten := u32 w.1
      if bytesWritten = n then
        ⟨ok, mem, some 0, w.2, [TransportCall.write txBuf n]⟩
      else if bytesWritten = 0 then
        ⟨false, mem, some n, w.2, [TransportCall.write txBuf n]⟩
      else
        let n1 := u32 (n + SIZE_MOD - bytesWritten)
        ⟨ok, memmove mem txBuf (txBuf + bytesWritten) n1, some n1, w.2,
          [TransportCall.write txBuf n]⟩
    else ⟨ok, mem, txCount, st, []⟩

/-- Inbound half of the byte-oriented `update`, lines 69-75, continuing from
the state `r` the outbound half left. -/
def updateRx {σ : Type} (T : Transport σ) (r : UpdateResult σ) (rxBuf rxCount : Nat) :
    UpdateResult σ :=
  if rxBuf ≠ 0 ∧ rxCount > 0 then
    let rd := T.tud_audio_read r.st rxBuf rxCount
    let ok := if rd.1.1 ≠ rxCount then false else r.ok
    ⟨ok, memcpy r.mem rxBuf rd.1.2, r.txCount, rd.2, r.calls ++ [TransportCall.read rxBuf rxCount]⟩
  else r

/-- The byte-oriented `USBD_Audio::update(uint8_t *txBuf, size_t *txCount,
uint8_t *rxBuf, size_t rxCount)`. -/
def update8 {σ : Type} (T : Transport σ) (st : σ) (mem : Mem) (txBuf : Nat)
    (txCount : Option Nat) (rxBuf rxCount : Nat) : UpdateResult σ :=
  updateRx T (updateTx T st mem txBuf txCount) rxBuf rxCount

/-! ## TinyUSB descriptor templates

`usbd.h` and `audio.h` of TinyUSB are not part of this repository.  The
templates below follow the block layouts of the USB Audio Class 2.0 tables;
their lengths are the `TUD_AUDIO_DESC_*_LEN` constants. -/

/-- Modelled from the spec: `U16_TO_U8S_LE` of TinyUSB (absent from src), the two
bytes of a 16-bit value, low byte first. -/
def U16_TO_U8S_LE (x : Nat) : List Nat := [u8 x, u8 (x / 256)]

/-- Modelled from the spec: `U32_TO_U8S_LE` of TinyUSB (absent from src), the four
bytes of a 32-bit value, low byte first. -/
def U32_TO_U8S_LE (x : Nat) : List Nat :=
  [u8 x, u8 (x / 256), u8 (x / 65536), u8 (x / 16777216)]

/-- Modelled from the spec: the TinyUSB constant `TUSB_DESC_INTERFACE`, absent from src. -/
def TUSB_DESC_INTERFACE : Nat := 0x04
/-- Modelled from the spec: the TinyUSB constant `TUSB_DESC_ENDPOINT`, absent from src. -/
def TUSB_DESC_ENDPOINT : Nat := 0x05
/-- Modelled from the spec: the TinyUSB constant `TUSB_DESC_INTERFACE_ASSOCIATION`, absent from src. -/
def TUSB_DESC_INTERFACE_ASSOCIATION : Nat := 0x0B
/-- Modelled from the spec: the TinyUSB constant `TUSB_DESC_CS_INTERFACE`, absent from src. -/
def TUSB_DESC_CS_INTERFACE : Nat := 0x24
/-- Modelled from the spec: the TinyUSB constant `TUSB_DESC_CS_ENDPOINT`, absent from src. -/
def TUSB_DESC_CS_ENDPOINT : Nat := 0x25
/-- Modelled from the spec: the TinyUSB constant `TUSB_CLASS_AUDIO`, absent from src. -/
def TUSB_CLASS_AUDIO : Nat := 1
/-- Modelled from the spec: the TinyUSB constant `TUSB_DIR_OUT`, absent from src. -/
def TUSB_DIR_OUT : Nat := 0
/-- Modelled from the spec: the TinyUSB constant `TUSB_DIR_IN`, absent from src. -/
def TUSB_DIR_IN : Nat := 1
/-- Modelled from the spec: the TinyUSB constant `TUSB_XFER_ISOCHRONOUS`, absent from src. -/
def TUSB_XFER_ISOCHRONOUS : Nat := 1
/-- Modelled from the spec: the TinyUSB constant `TUSB_ISO_EP_ATT_NO_SYNC`, absent from src. -/
def TUSB_ISO_EP_ATT_NO_SYNC : Nat := 0x00
/-- Modelled from the spec: the TinyUSB constant `TUSB_ISO_EP_ATT_EXPLICIT_FB`, absent from src. -/
def TUSB_ISO_EP_ATT_EXPLICIT_FB : Nat := 0x10
/-- Modelled from the spec: the TinyUSB constant `AUDIO_FUNCTION_SUBCLASS_UNDEFINED`, absent from src. -/
def AUDIO_FUNCTION_SUBCLASS_UNDEFINED : Nat := 0x00
/-- Modelled from the spec: the TinyUSB constant `AUDIO_FUNC_PROTOCOL_CODE_V2`, absent from src. -/
def AUDIO_FUNC_PROTOCOL_CODE_V2 : Nat := 0x20
/-- Modelled from the spec: the TinyUSB constant `AUDIO_INT_PROTOCOL_CODE_V2`, absent from src. -/
def AUDIO_INT_PROTOCOL_CODE_V2 : Nat := 0x20
/-- Modelled from the spec: the TinyUSB constant `AUDIO_SUBCLASS_CONTROL`, absent from src. -/
def AUDIO_SUBCLASS_CONTROL : Nat := 0x01
/-- Modelled from the spec: the TinyUSB constant `AUDIO_SUBCLASS_STREAMING`, absent from src. -/
def AUDIO_SUBCLASS_STREAMING : Nat := 0x02
/-- Modelled from the spec: the TinyUSB constant `AUDIO_FUNC_MUSICAL_INSTRUMENT`, absent from src. -/
def AUDIO_FUNC_MUSICAL_INSTRUMENT : Nat := 0x09
/-- Modelled from the spec: the TinyUSB constant `AUDIO_CS_AC_INTERFACE_HEADER`, absent from src. -/
def AUDIO_CS_AC_INTERFACE_HEADER : Nat := 0x01
/-- Modelled from the spec: the TinyUSB constant `AUDIO_CS_AC_INTERFACE_INPUT_TERMINAL`, absent from src. -/
def AUDIO_CS_AC_INTERFACE_INPUT_TERMINAL : Nat := 0x02
/-- Modelled from the spec: the TinyUSB constant `AUDIO_CS_AC_INTERFACE_OUTPUT_TERMINAL`, absent from src. -/
def AUDIO_CS_AC_INTERFACE_OUTPUT_TERMINAL : Nat := 0x03
/-- Modelled from the spec: the TinyUSB constant `AUDIO_CS_AC_INTERFACE_FEATURE_UNIT`, absent from src. -/
def AUDIO_CS_AC_INTERFACE_FEATURE_UNIT : Nat := 0x06
/-- Modelled from the spec: the TinyUSB constant `AUDIO_CS_AC_INTERFACE_CLOCK_SOURCE`, absent from src. -/
def AUDIO_CS_AC_INTERFACE_CLOCK_SOURCE : Nat := 0x0A
/-- Modelled from the spec: the TinyUSB constant `AUDIO_CS_AS_INTERFACE_AS_GENERAL`, absent from src. -/
def AUDIO_CS_AS_INTERFACE_AS_GENERAL : Nat := 0x01
/-- Modelled from the spec: the TinyUSB constant `AUDIO_CS_AS_INTERFACE_FORMAT_TYPE`, absent from src. -/
def AUDIO_CS_AS_INTERFACE_FORMAT_TYPE : Nat := 0x02
/-- Modelled from the spec: the TinyUSB constant `AUDIO_FORMAT_TYPE_I`, absent from src. -/
def AUDIO_FORMAT_TYPE_I : Nat := 0x01
/-- Modelled from the spec: the TinyUSB constant `AUDIO_CS_EP_SUBTYPE_GENERAL`, absent from src. -/
def AUDIO_CS_EP_SUBTYPE_GENERAL : Nat := 0x01

/-- Modelled from the spec: the TinyUSB constant `TUD_AUDIO_DESC_IAD_LEN`, absent from src. -/
def TUD_AUDIO_DESC_IAD_LEN : Nat := 8
/-- Modelled from the spec: the TinyUSB constant `TUD_AUDIO_DESC_STD_AC_LEN`, absent from src. -/
def TUD_AUDIO_DESC_STD_AC_LEN : Nat := 9
/-- Modelled from the spec: the TinyUSB constant `TUD_AUDIO_DESC_CS_AC_LEN`, absent from src. -/
def TUD_AUDIO_DESC_CS_AC_LEN : Nat := 9
/-- Modelled from the spec: the TinyUSB constant `TUD_AUDIO_DESC_CLK_SRC_LEN`, absent from src. -/
def TUD_AUDIO_DESC_CLK_SRC_LEN : Nat := 8
/-- Modelled from the spec: the TinyUSB constant `TUD_AUDIO_DESC_INPUT_TERM_LEN`, absent from src. -/
def TUD_AUDIO_DESC_INPUT_TERM_LEN : Nat := 17
/-- Modelled from the spec: the TinyUSB constant `TUD_AUDIO_DESC_OUTPUT_TERM_LEN`, absent from src. -/
def TUD_AUDIO_DESC_OUTPUT_TERM_LEN : Nat := 12
/-- Modelled from the spec: the TinyUSB constant `TUD_AUDIO_DESC_FEATURE_UNIT_ONE_CHANNEL_LEN`, absent from src. -/
def TUD_AUDIO_DESC_FEATURE_UNIT_ONE_CHANNEL_LEN : Nat := 6 + (1 + 1) * 4
/-- Modelled from the spec: the TinyUSB constant `TUD_AUDIO_DESC_STD_AS_INT_LEN`, absent from src. -/
def TUD_AUDIO_DESC_STD_AS_INT_LEN : Nat := 9
/-- Modelled from the spec: the TinyUSB constant `TUD_AUDIO_DESC_CS_AS_INT_LEN`, absent from src. -/
def TUD_AUDIO_DESC_CS_AS_INT_LEN : Nat := 16
/-- Modelled from the spec: the TinyUSB constant `TUD_AUDIO_DESC_TYPE_I_FORMAT_LEN`, absent from src. -/
def TUD_AUDIO_DESC_TYPE_I_FORMAT_LEN : Nat := 6
/-- Modelled from the spec: the TinyUSB constant `TUD_AUDIO_DESC_STD_AS_ISO_EP_LEN`, absent from src. -/
def TUD_AUDIO_DESC_STD_AS_ISO_EP_LEN : Nat := 7
/-- Modelled from the spec: the TinyUSB constant `TUD_AUDIO_DESC_CS_AS_ISO_EP_LEN`, absent from src. -/
def TUD_AUDIO_DESC_CS_AS_ISO_EP_LEN : Nat := 8
/-- Modelled from the spec: the TinyUSB constant `TUD_AUDIO_DESC_STD_AS_ISO_FB_EP_LEN`, absent from src. -/
def TUD_AUDIO_DESC_STD_AS_ISO_FB_EP_LEN : Nat := 7

/-- Modelled from the spec: the TinyUSB template of the Standard Interface
Association block (absent from src). -/
def TUD_AUDIO_DESC_IAD (firstitf nitfs stridx : Nat) : List Nat :=
  [TUD_AUDIO_DESC_IAD_LEN, TUSB_DESC_INTERFACE_ASSOCIATION, u8 firstitf, u8 nitfs,
   TUSB_CLASS_AUDIO, AUDIO_FUNCTION_SUBCLASS_UNDEFINED, AUDIO_FUNC_PROTOCOL_CODE_V2, u8 stridx]

/-- Modelled from the spec: the TinyUSB template of the Standard AudioControl
Interface block (absent from src). -/
def TUD_AUDIO_DESC_STD_AC (itfnum nEPs stridx : Nat) : List Nat :=
  [TUD_AUDIO_DESC_STD_AC_LEN, TUSB_DESC_INTERFACE, u8 itfnum, 0x00, u8 nEPs,
   TUSB_CLASS_AUDIO, AUDIO_SUBCLASS_CONTROL, AUDIO_INT_PROTOCOL_CODE_V2, u8 stridx]

/-- Modelled from the spec: the TinyUSB template of the Class-Specific
AudioControl Interface Header block (absent from src).  The template adds the
header length to the total length it is handed. -/
def TUD_AUDIO_DESC_CS_AC (bcdADC category totallen ctrl : Nat) : List Nat :=
  [TUD_AUDIO_DESC_CS_AC_LEN, TUSB_DESC_CS_INTERFACE, AUDIO_CS_AC_INTERFACE_HEADER] ++
  U16_TO_U8S_LE bcdADC ++ [u8 category] ++
  U16_TO_U8S_LE (totallen + TUD_AUDIO_DESC_CS_AC_LEN) ++ [u8 ctrl]

/-- Modelled from the spec: the TinyUSB template of the Clock Source block
(absent from src). -/
def TUD_AUDIO_DESC_CLK_SRC (clkid attr ctrl assocTerm stridx : Nat) : List Nat :=
  [TUD_AUDIO_DESC_CLK_SRC_LEN, TUSB_DESC_CS_INTERFACE, AUDIO_CS_AC_INTERFACE_CLOCK_SOURCE,
   u8 clkid, u8 attr, u8 ctrl, u8 assocTerm, u8 stridx]

/-- Modelled from the spec: the TinyUSB template of the Input Terminal block
(absent from src). -/
def TUD_AUDIO_DESC_INPUT_TERM (termid termtype assocTerm clkid nchannelslogical channelcfg
    idxchannelnames ctrl stridx : Nat) : List Nat :=
  [TUD_AUDIO_DESC_INPUT_TERM_LEN, TUSB_DESC_CS_INTERFACE, AUDIO_CS_AC_INTERFACE_INPUT_TERMINAL,
   u8 termid] ++ U16_TO_U8S_LE termtype ++ [u8 assocTerm, u8 clkid, u8 nchannelslogical] ++
  U32_TO_U8S_LE channelcfg ++ [u8 idxchannelnames] ++ U16_TO_U8S_LE ctrl ++ [u8 stridx]

/-- Modelled from the spec: the TinyUSB template of the Output Terminal block
(absent from src). -/
def TUD_AUDIO_DESC_OUTPUT_TERM (termid termtype assocTerm srcid clkid ctrl stridx : Nat) :
    List Nat :=
  [TUD_AUDIO_DESC_OUTPUT_TERM_LEN, TUSB_DESC_CS_INTERFACE, AUDIO_CS_AC_INTERFACE_OUTPUT_TERMINAL,
   u8 termid] ++ U16_TO_U8S_LE termtype ++ [u8 assocTerm, u8 srcid, u8 clkid] ++
  U16_TO_U8S_LE ctrl ++ [u8 stridx]

/-- Modelled from the spec: the TinyUSB template of the one-channel Feature
Unit block (absent from src). -/
def TUD_AUDIO_DESC_FEATURE_UNIT_ONE_CHANNEL (unitid srcid ctrlch0master ctrlch1 stridx : Nat) :
    List Nat :=
  [TUD_AUDIO_DESC_FEATURE_UNIT_ONE_CHANNEL_LEN, TUSB_DESC_CS_INTERFACE,
   AUDIO_CS_AC_INTERFACE_FEATURE_UNIT, u8 unitid, u8 srcid] ++
  U32_TO_U8S_LE ctrlch0master ++ U32_TO_U8S_LE ctrlch1 ++ [u8 stridx]

/-- Modelled from the spec: the TinyUSB template of the Standard AudioStreaming
Interface block (absent from src). -/
def TUD_AUDIO_DESC_STD_AS_INT (itfnum altset nEPs stridx : Nat) : List Nat :=
  [TUD_AUDIO_DESC_STD_AS_INT_LEN, TUSB_DESC_INTERFACE, u8 itfnum, u8 altset, u8 nEPs,
   TUSB_CLASS_AUDIO, AUDIO_SUBCLASS_STREAMING, AUDIO_INT_PROTOCOL_CODE_V2, u8 stridx]

/-- Modelled from the spec: the TinyUSB template of the Class-Specific
AudioStreaming Interface block (absent from src). -/
def TUD_AUDIO_DESC_CS_AS_INT (termid ctrl formattype formats nchannelsphysical channelcfg
    stridx : Nat) : List Nat :=
  [TUD_AUDIO_DESC_CS_AS_INT_LEN, TUSB_DESC_CS_INTERFACE, AUDIO_CS_AS_INTERFACE_AS_GENERAL,
   u8 termid, u8 ctrl, u8 formattype] ++ U32_TO_U8S_LE formats ++ [u8 nchannelsphysical] ++
  U32_TO_U8S_LE channelcfg ++ [u8 stridx]

/-- Modelled from the spec: the TinyUSB template of the Type I Format block
(absent from src). -/
def TUD_AUDIO_DESC_TYPE_I_FORMAT (subslotsize bitresolution : Nat) : List Nat :=
  [TUD_AUDIO_DESC_TYPE_I_FORMAT_LEN, TUSB_DESC_CS_INTERFACE, AUDIO_CS_AS_INTERFACE_FORMAT_TYPE,
   AUDIO_FORMAT_TYPE_I, u8 subslotsize, u8 bitresolution]

/-- Modelled from the spec: the TinyUSB template of the Standard Isochronous
Audio Data Endpoint block (absent from src). -/
def TUD_AUDIO_DESC_STD_AS_ISO_EP (ep attr maxEPsize interval : Nat) : List Nat :=
  [TUD_AUDIO_DESC_STD_AS_ISO_EP_LEN, TUSB_DESC_ENDPOINT, u8 ep, u8 attr] ++
  U16_TO_U8S_LE maxEPsize ++ [u8 interval]

/-- Modelled from the spec: the TinyUSB template of the Class-Specific
Isochronous Audio Data Endpoint block (absent from src). -/
def TUD_AUDIO_DESC_CS_AS_ISO_EP (attr ctrl lockdelayunit lockdelay : Nat) : List Nat :=
  [TUD_AUDIO_DESC_CS_AS_ISO_EP_LEN, TUSB_DESC_CS_ENDPOINT, AUDIO_CS_EP_SUBTYPE_GENERAL,
   u8 attr, u8 ctrl, u8 lockdelayunit] ++ U16_TO_U8S_LE lockdelay

/-- Modelled from the spec: the TinyUSB template of the Standard Isochronous
Feedback Endpoint block (absent from src). -/
def TUD_AUDIO_DESC_STD_AS_ISO_FB_EP (ep epsize interval : Nat) : List Nat :=
  [TUD_AUDIO_DESC_STD_AS_ISO_FB_EP_LEN, TUSB_DESC_ENDPOINT, u8 ep,
   u8 (TUSB_XFER_ISOCHRONOUS ||| TUSB_ISO_EP_ATT_NO_SYNC ||| TUSB_ISO_EP_ATT_EXPLICIT_FB)] ++
  U16_TO_U8S_LE epsize ++ [u8 interval]

/-! ## The device boundary and the object -/

/-- One call made to the `TinyUSBDevice` singleton. -/
inductive DeviceCall where
  | allocInterface (count : Nat)
  | allocEndpoint (dir : Nat)
  | addInterface
  | addStringDescriptor (s : String)
  deriving DecidableEq, Repr

/-- The `TinyUSBDevice` singleton (`Adafruit_USBD_Device`), which is not part
of this repository: interface and endpoint allocator, interface registry and
string table, over an abstract state. -/
structure Device (δ : Type) where
  allocInterface : δ → Nat → Nat × δ
  allocEndpoint : δ → Nat → Nat × δ
  addInterface : δ → Bool × δ
  addStringDescriptor : δ → String → Nat × δ

/-- Descriptor string of `USBD_Audio.h`, line 9. -/
def AUDIO_COLLECTION_NAME : String := "AURA MGP01"
/-- Descriptor string of `USBD_Audio.h`, line 10. -/
def FEATURE_UNIT_NAME : String := "AURA Controls"
/-- Descriptor string of `USBD_Audio.h`, line 11. -/
def INPUT_TERMINAL_ANALOG_NAME : String := "Analog in"
/-- Descriptor string of `USBD_Audio.h`, line 12. -/
def OUTPUT_TERMINAL_ANALOG_NAME : String := "Analog out"
/-- Number of samples per channel to buffer, `USBD_Audio.h`, line 14. -/
def DEFAULT_BUFFER_SAMPLES : Nat := 32

/-- The data members of `class USBD_Audio` (and `_strid` of its base class).
A buffer pointer is `none` while it has never been assigned (the constructor
leaves it indeterminate when `bufferSampleDepth` is 0). -/
structure USBD_Audio where
  _strid : Nat
  audioCollectionStrIndex : Nat
  featureUnitStrIndex : Nat
  inputTerminalStrIndex : Nat
  outputTerminalStrIndex : Nat
  channels : Nat
  bitDepth : Nat
  bufferSampleDepth : Nat
  bufferSize : Nat
  rxBuffer : Option Nat
  txBuffer : Option Nat
  rxBufCount : Nat
  txBufCount : Nat
  alreadyAdded : Bool
  deriving DecidableEq, Repr

/-- What the constructor leaves behind: the object, the device, and the sizes
handed to `malloc`, in call order. -/
structure CtorResult (δ : Type) where
  obj : USBD_Audio
  dev : δ
  mallocs : List Nat
  calls : List DeviceCall

/-- The constructor `USBD_Audio::USBD_Audio`, lines 14-28.  `mallocTx` and
`mallocRx` are the pointers the two `malloc` calls answer, `strid` is the value
the base class gives `_strid`.  The arguments are converted to their parameter
types; the product for `bufferSize` is formed in `int` (it stays below `2 ^ 31`
for one channel and a bit depth up to 16) and is then stored into a
`uint16_t`. -/
def USBD_Audio.ctor {δ : Type} (D : Device δ) (d : δ) (strid mallocTx mallocRx : Nat)
    (numberOfChannels bitDepth bufferSampleDepth : Nat) : CtorResult δ :=
  let channels := u8 numberOfChannels
  let bitDepth := u8 bitDepth
  let bufferSampleDepth := u16 bufferSampleDepth
  let bufferSize := u16 (channels * bitDepth * bufferSampleDepth)
  let txBuffer := if bufferSampleDepth ≠ 0 then some mallocTx else none
  let rxBuffer := if bufferSampleDepth ≠ 0 then some mallocRx else none
  let mallocs := if bufferSampleDepth ≠ 0 then [bufferSize, bufferSize] else []
  let s1 := D.addStringDescriptor d FEATURE_UNIT_NAME
  let s2 := D.addStringDescriptor s1.2 OUTPUT_TERMINAL_ANALOG_NAME
  let s3 := D.addStringDescriptor s2.2 INPUT_TERMINAL_ANALOG_NAME
  { obj :=
      { _strid := strid
        audioCollectionStrIndex := 0
        featureUnitStrIndex := u8 s1.1
        inputTerminalStrIndex := u8 s3.1
        outputTerminalStrIndex := u8 s2.1
        channels := channels
        bitDepth := bitDepth
        bufferSampleDepth := bufferSampleDepth
        bufferSize := bufferSize
        rxBuffer := rxBuffer
        txBuffer := txBuffer
        rxBufCount := 0
        txBufCount := 0
        alreadyAdded := false }
    dev := s3.2
    mallocs := mallocs
    calls := [DeviceCall.addStringDescriptor FEATURE_UNIT_NAME,
              DeviceCall.addStringDescriptor OUTPUT_TERMINAL_ANALOG_NAME,
              DeviceCall.addStringDescriptor INPUT_TERMINAL_ANALOG_NAME] }

/-- What `begin()` leaves behind. -/
structure BeginResult (δ : Type) where
  ret : Bool
  obj : USBD_Audio
  dev : δ
  calls : List DeviceCall

/-- The method `USBD_Audio::begin`, lines 35-47. -/
def USBD_Audio.begin {δ : Type} (D : Device δ) (self : USBD_Audio) (d : δ) : BeginResult δ :=
  if self.alreadyAdded then
    ⟨false, self, d, []⟩
  else
    let r := D.addInterface d
    if !r.1 then
      ⟨false, self, r.2, [DeviceCall.addInterface]⟩
    else
      ⟨true, { self with alreadyAdded := true }, r.2, [DeviceCall.addInterface]⟩

/-- The two-byte-sample `USBD_Audio::update(uint16_t *txBuf, size_t *txCount,
uint16_t *rxBuf, size_t rxCount)`, lines 78-83.  The count pointer is
dereferenced unconditionally, so a null `txCount` has no defined result. -/
def update16 {σ : Type} (T : Transport σ) (st : σ) (mem : Mem) (txBuf : Nat)
    (txCount : Option Nat) (rxBuf rxCount : Nat) : Option (UpdateResult σ) :=
  match txCount with
  | none => none
  | some n =>
    let r := update8 T st mem txBuf (some (u32 (n * 2))) rxBuf (u32 (rxCount * 2))
    some { r with txCount := r.txCount.map (fun c => c / 2) }

/-- What the no-argument `update()` leaves behind. -/
structure UpdateObjResult (σ : Type) where
  ok : Bool
  obj : USBD_Audio
  mem : Mem
  st : σ
  calls : List TransportCall

/-- The no-argument `USBD_Audio::update()`, lines 85-87.  The members
`txBuffer` and `rxBuffer` are `uint16_t*`, so the call resolves to the
two-byte-sample overload, with `&txBufCount` as the count pointer.  Reading a
buffer pointer that was never assigned has no defined result. -/
def USBD_Audio.update {σ : Type} (T : Transport σ) (self : USBD_Audio) (st : σ) (mem : Mem) :
    Option (UpdateObjResult σ) :=
  match self.txBuffer, self.rxBuffer with
  | some txBuffer, some rxBuffer =>
    match update16 T st mem txBuffer (some self.txBufCount) rxBuffer self.rxBufCount with
    | none => none
    | some r =>
      some ⟨r.ok, { self with txBufCount := r.txCount.getD self.txBufCount }, r.mem, r.st, r.calls⟩
  | _, _ => none

/-! ## The descriptor builder -/

/-- The `desc[]` arrays of `getInterfaceDescriptor`, lines 132-369, in the order
the source builds them, with the running `id` counter threaded through.  The
subtractions `id-1`, `termID - 2`, `termID - 1` are stored into `uint8_t`, so
they are taken modulo 256. -/
def descBlocks (self : USBD_Audio) (itfNum itfCount ep_in ep_out pollingInterval
    maxPacketSize : Nat) : List (List Nat) :=
  -- Header of the Audio Interface Collection
  let descIAD := TUD_AUDIO_DESC_IAD itfNum itfCount self._strid
  -- Standard AudioControl Interface Descriptor
  let descStdAC :=
    let numEP := 0
    let strIdx := 0
    TUD_AUDIO_DESC_STD_AC itfNum numEP strIdx
  -- Class-Specific AudioControl Interface
  let descCsAC :=
    let bcdADC := 2
    let category := AUDIO_FUNC_MUSICAL_INSTRUMENT
    let totalLen := u16 (TUD_AUDIO_DESC_CLK_SRC_LEN + TUD_AUDIO_DESC_INPUT_TERM_LEN * 2 +
      TUD_AUDIO_DESC_OUTPUT_TERM_LEN * 2 + TUD_AUDIO_DESC_FEATURE_UNIT_ONE_CHANNEL_LEN)
    let ctrl := 0x00
    TUD_AUDIO_DESC_CS_AC bcdADC category totalLen ctrl
  let id := 1
  let groupClockID := id
  let id := u8 (id + 1)
  -- Clock Source
  let descClk :=
    let clockID := groupClockID
    let attr := 0x01
    let ctrl := 0x00
    let assocTermID := 0
    let strIdx := 0
    TUD_AUDIO_DESC_CLK_SRC clockID attr ctrl assocTermID strIdx
  let streamingTermID := id
  let id := u8 (id + 1)
  -- Input Terminal: out from USB host into device
  let descInUsb :=
    let termID := streamingTermID
    let termType := 0x101
    let assocTerm := u8 (termID + 2)
    let clkID := groupClockID
    let channels := 1
    let channelSpatialCfg := 0x0
    let ch1nameID := 0
    let controls := 0x0000
    let strIdx := 0
    TUD_AUDIO_DESC_INPUT_TERM termID termType assocTerm clkID channels channelSpatialCfg
      ch1nameID controls strIdx
  -- Feature Unit
  let unitID1 := id
  let id := u8 (id + 1)
  let descFu1 :=
    let unitID := unitID1
    let srcID := u8 (id + 255)
    let masterControls := 0x00000003
    let ch1Controls := 0x00000000
    let strIdx := self.featureUnitStrIndex
    TUD_AUDIO_DESC_FEATURE_UNIT_ONE_CHANNEL unitID srcID masterControls ch1Controls strIdx
  -- Output Terminal: analog output
  let termID2 := id
  let id := u8 (id + 1)
  let descOutAnalog :=
    let termID := termID2
    let termType := 0x601
    let assocTerm := u8 (termID + 254)
    let srcID := u8 (termID + 255)
    let clkID := groupClockID
    let controls := 0x0000
    let strIdx := self.outputTerminalStrIndex
    TUD_AUDIO_DESC_OUTPUT_TERM termID termType assocTerm srcID clkID controls strIdx
  -- Input Terminal: analog input
  let termID3 := id
  let id := u8 (id + 1)
  let descInAnalog :=
    let termID := termID3
    let termType := 0x601
    let assocTerm := u8 (termID + 2)
    let clkID := groupClockID
    let channels := 1
    let channelSpatialCfg := 0x00
    let ch1nameID := 0
    let controls := 0x0000
    let strIdx := self.inputTerminalStrIndex
    TUD_AUDIO_DESC_INPUT_TERM termID termType assocTerm clkID channels channelSpatialCfg
      ch1nameID controls strIdx
  -- Feature Unit
  let unitID2 := id
  let id := u8 (id + 1)
  let descFu2 :=
    let unitID := unitID2
    let srcID := u8 (id + 255)
    let masterControls := 0x00000003
    let ch1Controls := 0x00000000
    let strIdx := self.featureUnitStrIndex
    TUD_AUDIO_DESC_FEATURE_UNIT_ONE_CHANNEL unitID srcID masterControls ch1Controls strIdx
  -- Output Terminal: out from device into USB host
  let termID4 := id
  let descOutUsb :=
    let termID := termID4
    let termType := 0x101
    let assocTerm := u8 (termID + 254)
    let srcID := u8 (termID + 255)
    let clkID := groupClockID
    let controls := 0x0000
    let strIdx := 0
    TUD_AUDIO_DESC_OUTPUT_TERM termID termType assocTerm srcID clkID controls strIdx
  -- Std. AudioStreaming Itf. Descriptor (Alt 0, no EPs)
  let descAsAlt0 :=
    let altSet := 0x00
    let numEPs := 0
    let strIdx := 0
    TUD_AUDIO_DESC_STD_AS_INT itfNum altSet numEPs strIdx
  -- Std. AudioStreaming Itf. Descriptor (Alt 1, streaming)
  let descAsAlt1 :=
    let altSet := 0x01
    let numEPs := itfCount
    let strIdx := 0
    TUD_AUDIO_DESC_STD_AS_INT itfNum altSet numEPs strIdx
  -- Class-specific AudioStreaming Itf. Descriptor
  let descCsAS :=
    let termID := streamingTermID
    let ctrl := 0x00
    let formatType := 0x01
    let formats := 0x00
    let numPhysChs := 0x01
    let chCfg := 0x00000004
    let strIdx := 0
    TUD_AUDIO_DESC_CS_AS_INT termID ctrl formatType formats numPhysChs chCfg strIdx
  -- Type 1 Format Descriptor
  let descFormat :=
    let subslotSize := 2
    let bitDepth := 16
    TUD_AUDIO_DESC_TYPE_I_FORMAT subslotSize bitDepth
  -- Std AudStrm Isochronous Audio Data EP Descriptor
  let descIsoEp :=
    let endpoint := ep_out
    let attr := 0x05
    let maxPktSize := maxPacketSize
    let interval := pollingInterval
    TUD_AUDIO_DESC_STD_AS_ISO_EP endpoint attr maxPktSize interval
  -- Class-specific AS Isochronous Audio Data EP Descriptor
  let descCsIsoEp :=
    let attr := 0x00
    let ctrl := 0x00
    let lockDelayUnit := 0x00
    let lockDelay := 0x0000
    TUD_AUDIO_DESC_CS_AS_ISO_EP attr ctrl lockDelayUnit lockDelay
  -- Std AudStrm Isochronous Feedback EP Descriptor
  let descFbEp :=
    let endpoint := ep_in
    let epSize := maxPacketSize
    let interval := pollingInterval
    TUD_AUDIO_DESC_STD_AS_ISO_FB_EP endpoint epSize interval
  [descIAD, descStdAC, descCsAC, descClk, descInUsb, descFu1, descOutAnalog, descInAnalog,
   descFu2, descOutUsb, descAsAlt0, descAsAlt1, descCsAS, descFormat, descIsoEp, descCsIsoEp,
   descFbEp]

/-- The constant `desc_len` of `getInterfaceDescriptor`, lines 99-118. -/
def desc_len : Nat :=
  u16 (TUD_AUDIO_DESC_IAD_LEN +
    TUD_AUDIO_DESC_STD_AC_LEN +
    TUD_AUDIO_DESC_CS_AC_LEN +
    TUD_AUDIO_DESC_CLK_SRC_LEN +
    TUD_AUDIO_DESC_INPUT_TERM_LEN +
    TUD_AUDIO_DESC_FEATURE_UNIT_ONE_CHANNEL_LEN +
    TUD_AUDIO_DESC_OUTPUT_TERM_LEN +
    TUD_AUDIO_DESC_INPUT_TERM_LEN +
    TUD_AUDIO_DESC_FEATURE_UNIT_ONE_CHANNEL_LEN +
    TUD_AUDIO_DESC_OUTPUT_TERM_LEN +
    TUD_AUDIO_DESC_STD_AS_INT_LEN +
    TUD_AUDIO_DESC_STD_AS_INT_LEN +
    TUD_AUDIO_DESC_CS_AS_INT_LEN +
    TUD_AUDIO_DESC_TYPE_I_FORMAT_LEN +
    TUD_AUDIO_DESC_STD_AS_ISO_EP_LEN +
    TUD_AUDIO_DESC_CS_AS_ISO_EP_LEN +
    TUD_AUDIO_DESC_STD_AS_ISO_FB_EP_LEN)

/-- The output memory and the `uint16_t len` write cursor. -/
structure Cursor where
  mem : Mem
  len : Nat

/-- One `memcpy(buf + len, desc, sizeof(desc)); len += sizeof(desc);` step. -/
def emit (buf : Nat) (c : Cursor) (desc : List Nat) : Cursor :=
  ⟨memcpy c.mem (buf + c.len) desc, u16 (c.len + desc.length)⟩

/-- What `getInterfaceDescriptor` leaves behind. -/
structure DescResult (δ : Type) where
  ret : Nat
  mem : Mem
  dev : δ
  calls : List DeviceCall

set_option linter.unusedVariables false in
/-- The method `USBD_Audio::getInterfaceDescriptor`, lines 89-377.  Every block
of the source performs the same `emit` step on its `desc[]` array, so the
serialisation is a left fold of `emit` over `descBlocks`. -/
def USBD_Audio.getInterfaceDescriptor {δ : Type} (D : Device δ) (self : USBD_Audio) (d : δ)
    (mem : Mem) (itfnum_deprecated : Nat) (buf : Nat) (bufsize : Nat) : DescResult δ :=
  let itfCount := 2
  let a1 := D.allocInterface d itfCount
  let itfNum := u8 a1.1
  let a2 := D.allocEndpoint a1.2 TUSB_DIR_IN
  let ep_in := u8 a2.1
  let a3 := D.allocEndpoint a2.2 TUSB_DIR_OUT
  let ep_out := u8 a3.1
  let calls := [DeviceCall.allocInterface itfCount, DeviceCall.allocEndpoint TUSB_DIR_IN,
    DeviceCall.allocEndpoint TUSB_DIR_OUT]
  let pollingInterval := 100
  let maxPacketSize := 512
  if buf = 0 then
    ⟨desc_len, mem, a3.2, calls⟩
  else if bufsize < desc_len then
    ⟨0, mem, a3.2, calls⟩
  else
    let c := (descBlocks self itfNum itfCount ep_in ep_out pollingInterval maxPacketSize).foldl
      (emit buf) ⟨mem, 0⟩
    if c.len ≠ desc_len then
      ⟨0, c.mem, a3.2, calls⟩
    else
      ⟨desc_len, c.mem, a3.2, calls⟩

/-! ## Concrete collaborators used to evaluate the code -/

/-- Modelled from the spec: an allocator handing out consecutive interface
numbers and endpoint addresses (`allocateInterfaceNumbers(count) -> firstNumber`,
`allocateEndpoint(direction) -> endpointAddress`), with a registry that accepts
every interface and a string table that numbers its entries.  The state is
(next interface, next IN endpoint, next OUT endpoint, next string index). -/
def counterDevice : Device (Nat × Nat × Nat × Nat) where
  allocInterface := fun s count => (s.1, (s.1 + count, s.2.1, s.2.2.1, s.2.2.2))
  allocEndpoint := fun s dir =>
    if dir = TUSB_DIR_IN then (0x80 ||| s.2.1, (s.1, s.2.1 + 1, s.2.2.1, s.2.2.2))
    else (s.2.2.1, (s.1, s.2.1, s.2.2.1 + 1, s.2.2.2))
  addInterface := fun s => (true, s)
  addStringDescriptor := fun s _ => (s.2.2.2, (s.1, s.2.1, s.2.2.1, s.2.2.2 + 1))

/-- A registry that refuses every interface; everything else as in
`counterDevice`. -/
def refusingDevice : Device (Nat × Nat × Nat × Nat) :=
  { counterDevice with addInterface := fun s => (false, s) }

/-- A transport that accepts `k` bytes on every write and, on every read of
`len` bytes, delivers the first `len` bytes of `data` (all of it when it is
shorter) and answers their number. -/
def constTransport (k : Nat) (data : List Nat) : Transport Unit where
  tud_audio_write := fun _ _ _ _ => (k, ())
  tud_audio_read := fun _ _ len => (((data.take len).length, data.take len), ())

/-- The regions `[p, p + n)` and `[q, q + m)` of memory do not overlap. -/
def Separate (p n q m : Nat) : Prop := p + n ≤ q ∨ q + m ≤ p

instance (p n q m : Nat) : Decidable (Separate p n q m) := by
  unfold Separate
  infer_instance

/-- The transport read stores no more bytes than it was asked for. -/
def ReadWithin {σ : Type} (T : Transport σ) : Prop :=
  ∀ st buf len, (T.tud_audio_read st buf len).1.2.length ≤ len

/-- The outbound outcome in the words of the specification, for `k` of `n`
bytes accepted: all accepted, the count becomes 0; none accepted, buffer and
count are left untouched; otherwise the remaining `n - k` bytes are shifted to
the front of `outBuf` and the count becomes the remainder. -/
def specTxOutcome (mem : Mem) (outBuf n k : Nat) : Mem × Nat :=
  if k = n then (mem, 0)
  else if k = 0 then (mem, n)
  else (memmove mem outBuf (outBuf + k) (n - k), n - k)

/-- A run of `begin()` calls on one object: the call number `i` finds the
device in the state `ds[i]` (anything may have happened to the device in
between) and the object as the previous call left it. -/
def beginSeq {δ : Type} (D : Device δ) : USBD_Audio → List δ → List (BeginResult δ)
  | _, [] => []
  | o, d :: ds => o.begin D d :: beginSeq D (o.begin D d).obj ds

/-- The bytes a fill serialises: the blocks of `descBlocks`, at the numbers the
allocator answers from state `d`, one after the other. -/
def descriptorBytes {δ : Type} (D : Device δ) (self : USBD_Audio) (d : δ) : List Nat :=
  let a1 := D.allocInterface d 2
  let a2 := D.allocEndpoint a1.2 TUSB_DIR_IN
  let a3 := D.allocEndpoint a2.2 TUSB_DIR_OUT
  (descBlocks self (u8 a1.1) 2 (u8 a2.1) (u8 a3.1) 100 512).flatten

/-- A small object used to evaluate the code: string indices 4, 5, 6 and
internal buffers at 1000 (rx) and 2000 (tx). -/
def sampleObj : USBD_Audio :=
  { _strid := 0, audioCollectionStrIndex := 0, featureUnitStrIndex := 4,
    inputTerminalStrIndex := 6, outputTerminalStrIndex := 5, channels := 1, bitDepth := 16,
    bufferSampleDepth := 32, bufferSize := 512, rxBuffer := some 1000, txBuffer := some 2000,
    rxBufCount := 0, txBufCount := 0, alreadyAdded := false }

/-- Memory whose byte at address `a` is `a % 256`. -/
def rampMem : Mem := fun a => a % 256

/-! ## Reading the output back -/

/-- The bytes a call reports as written: the `ret` bytes found at `buf` in the
memory the call leaves. -/
def DescResult.written {δ : Type} (r : DescResult δ) (buf : Nat) : List Nat :=
  (List.range r.ret).map (fun i => r.mem (buf + i))

/-- The bytes `getInterfaceDescriptor` reports as written into `buf`. -/
def USBD_Audio.filled {δ : Type} (D : Device δ) (self : USBD_Audio) (d : δ) (mem : Mem)
    (itf buf bufsize : Nat) : List Nat :=
  (self.getInterfaceDescriptor D d mem itf buf bufsize).written buf

/-- Walk a byte string as length-prefixed blocks: the first byte of a block is
its length, the next block starts right after it.  A zero length byte stops the
walk.  Every step consumes at least one byte, so `fuel` equal to the number of
bytes always suffices. -/
def decodeBlocks : Nat → List Nat → List (List Nat)
  | 0, _ => []
  | _, [] => []
  | fuel + 1, len :: rest =>
    if len = 0 then []
    else (len :: rest).take len :: decodeBlocks fuel ((len :: rest).drop len)

/-- The blocks of a byte string. -/
def decode (bytes : List Nat) : List (List Nat) := decodeBlocks bytes.length bytes

/-- Block number `i` (from 0) of a byte string. -/
def blockOf (bytes : List Nat) (i : Nat) : List Nat := (decode bytes).getD i []

/-- The one-byte field at offset `off` of a block. -/
def fld (blk : List Nat) (off : Nat) : Nat := blk.getD off 0

/-- The two-byte little-endian field at offset `off` of a block. -/
def fld16 (blk : List Nat) (off : Nat) : Nat := fld blk off + 256 * fld blk (off + 1)

/-- The two-byte-sample form in the words of the specification: convert the
sample count to a byte count by doubling, double the inbound request, run the
byte-oriented form, convert the resulting byte count back by halving. -/
def specUpdate16 {σ : Type} (T : Transport σ) (st : σ) (mem : Mem) (txBuf n rxBuf m : Nat) :
    UpdateResult σ :=
  let r := update8 T st mem txBuf (some (2 * n)) rxBuf (2 * m)
  { r with txCount := r.txCount.map (fun bytes => bytes / 2) }

/-- The bytes of the sample fill: `sampleObj`, the counting allocator started at
(0, 1, 1, 4), a 182-byte buffer at address 4096. -/
def sampleOut : List Nat := sampleObj.filled counterDevice (0, 1, 1, 4) rampMem 0 4096 182

/-- The sample object with another audio configuration: 8-bit samples and no
internal buffers. -/
def sampleObj8 : USBD_Audio :=
  { sampleObj with bitDepth := 8, bufferSampleDepth := 0, bufferSize := 0, rxBuffer := none,
                   txBuffer := none }

/-- The transport write never reports more bytes accepted than it was
offered. -/
def WriteWithin {σ : Type} (T : Transport σ) : Prop :=
  ∀ st mem buf len, (T.tud_audio_write st mem buf len).1 ≤ len

/-- A run of no-argument `update()` calls on one object: call number `i` finds
the transport state and the memory `envs[i]` (the bus and the application may
have changed both since the previous call; the run in which each call starts
where the previous one ended is one of these) and the object as the previous
call left it.  A call without a defined result ends the run. -/
def updateSeq {σ : Type} (T : Transport σ) :
    USBD_Audio → List (σ × Mem) → List (Option (UpdateObjResult σ))
  | _, [] => []
  | o, env :: envs =>
    match o.update T env.1 env.2 with
    | none => [none]
    | some r => some r :: updateSeq T r.obj envs

/-! ## Memory lemmas -/

theorem memcpy_outside (mem : Mem) (dst : Nat) (src : List Nat) (a : Nat)
    (h : a < dst ∨ dst + src.length ≤ a) : memcpy mem dst src a = mem a := by
  unfold memcpy
  rw [if_neg]
  omega

theorem memcpy_inside (mem : Mem) (dst : Nat) (src : List Nat) (i : Nat) (h : i < src.length) :
    memcpy mem dst src (dst + i) = src.getD i 0 := by
  unfold memcpy
  rw [if_pos (by omega), Nat.add_sub_cancel_left]

theorem memcpy_append (mem : Mem) (dst : Nat) (xs ys : List Nat) :
    memcpy (memcpy mem dst xs) (dst + xs.length) ys = memcpy mem dst (xs ++ ys) := by
  funext a
  simp only [memcpy, List.length_append]
  by_cases h1 : dst + xs.length ≤ a ∧ a < dst + xs.length + ys.length
  · rw [if_pos h1, if_pos (by omega), List.getD_append_right _ _ _ _ (by omega)]
    congr 1
    omega
  · rw [if_neg h1]
    by_cases h2 : dst ≤ a ∧ a < dst + xs.length
    · rw [if_pos h2, if_pos (by omega), List.getD_append _ _ _ _ (by omega)]
    · rw [if_neg h2, if_neg (by omega)]

theorem memcpy_nil (mem : Mem) (dst : Nat) : memcpy mem dst [] = mem := by
  funext a
  simp [memcpy]

theorem memmove_outside (mem : Mem) (dst src n a : Nat) (h : a < dst ∨ dst + n ≤ a) :
    memmove mem dst src n a = mem a := by
  unfold memmove
  rw [if_neg]
  omega

theorem memmove_inside (mem : Mem) (dst src n i : Nat) (h : i < n) :
    memmove mem dst src n (dst + i) = mem (src + i) := by
  unfold memmove
  rw [if_pos (by omega), Nat.add_sub_cancel_left]

/-- Folding `emit` over blocks is one `memcpy` of their concatenation, as long
as the 16-bit cursor does not wrap. -/
theorem foldl_emit (buf : Nat) (blocks : List (List Nat)) (c : Cursor)
    (h : c.len + blocks.flatten.length < 65536) :
    blocks.foldl (emit buf) c =
      ⟨memcpy c.mem (buf + c.len) blocks.flatten, c.len + blocks.flatten.length⟩ := by
  induction blocks generalizing c with
  | nil => simp [memcpy_nil]
  | cons b bs ih =>
    simp only [List.flatten_cons, List.length_append] at h
    have hlen : (emit buf c b).len = c.len + b.length := by
      simp only [emit, u16]
      omega
    rw [List.foldl_cons, ih (emit buf c b) (by rw [hlen]; omega), hlen]
    simp only [List.flatten_cons, List.length_append, Nat.add_assoc]
    rw [← memcpy_append, ← Nat.add_assoc]
    rfl

theorem descBlocks_length (self : USBD_Audio) (itfNum itfCount ep_in ep_out pi mps : Nat) :
    (descBlocks self itfNum itfCount ep_in ep_out pi mps).flatten.length = 182 := by
  rfl

theorem desc_len_eq : desc_len = 182 := by decide

/-- A fill into a large enough non-null buffer: returns 182 and the memory is a
single `memcpy` of `descriptorBytes`. -/
theorem getInterfaceDescriptor_fill_eq {δ : Type} (D : Device δ) (self : USBD_Audio) (d : δ)
    (mem : Mem) (itf buf bufsize : Nat) (hbuf : buf ≠ 0) (hsize : 182 ≤ bufsize) :
    (self.getInterfaceDescriptor D d mem itf buf bufsize).ret = 182 ∧
    (self.getInterfaceDescriptor D d mem itf buf bufsize).mem =
      memcpy mem buf (descriptorBytes D self d) := by
  unfold USBD_Audio.getInterfaceDescriptor
  simp only [if_neg hbuf, desc_len_eq, if_neg (Nat.not_lt.mpr hsize)]
  rw [foldl_emit _ _ _ (by rw [descBlocks_length]; show 0 + 182 < 65536; omega)]
  simp only [descBlocks_length, ne_eq, Nat.zero_add, not_true_eq_false, if_false, Nat.add_zero]
  exact ⟨trivial, rfl⟩

/-! ## Descriptor builder: length query, fill, short buffer -/

/-- C1: for every object configuration and every allocator state, the
null-buffer call of `getInterfaceDescriptor` returns the fixed value
`desc_len` = 182, the sum of the block lengths 8, 9, 9, 8, 17, 14, 12, 17, 14,
12, 9, 9, 16, 6, 7, 8, 7; and for every non-null buffer with `bufsize` at least
182 the fill returns 182 (the final `len != desc_len` branch is not taken),
every offset below 182 receives the corresponding descriptor byte whatever the
memory held before, and every byte outside offsets 0..181 is unchanged. -/
theorem getInterfaceDescriptor_length_and_fill {δ : Type} (D : Device δ) (self : USBD_Audio)
    (d : δ) (mem : Mem) (itf : Nat) :
    desc_len = 182 ∧
    (∀ itfNum itfCount ep_in ep_out pi mps,
      (descBlocks self itfNum itfCount ep_in ep_out pi mps).map List.length =
        [8, 9, 9, 8, 17, 14, 12, 17, 14, 12, 9, 9, 16, 6, 7, 8, 7]) ∧
    (∀ bufsize, (self.getInterfaceDescriptor D d mem itf 0 bufsize).ret = desc_len) ∧
    (∀ buf bufsize, buf ≠ 0 → desc_len ≤ bufsize →
      (self.getInterfaceDescriptor D d mem itf buf bufsize).ret = desc_len ∧
      (∀ i, i < desc_len →
        (self.getInterfaceDescriptor D d mem itf buf bufsize).mem (buf + i) =
          (descriptorBytes D self d).getD i 0) ∧
      (∀ i, i < desc_len → ∀ mem2 : Mem,
        (self.getInterfaceDescriptor D d mem2 itf buf bufsize).mem (buf + i) =
          (self.getInterfaceDescriptor D d mem itf buf bufsize).mem (buf + i)) ∧
      (∀ a, a < buf ∨ buf + desc_len ≤ a →
        (self.getInterfaceDescriptor D d mem itf buf bufsize).mem a = mem a)) := by
  have hlen : (descriptorBytes D self d).length = 182 := descBlocks_length _ _ _ _ _ _ _
  refine ⟨desc_len_eq, fun _ _ _ _ _ _ => rfl, fun bufsize => ?_, ?_⟩
  · simp [USBD_Audio.getInterfaceDescriptor]
  · intro buf bufsize hbuf hsize
    rw [desc_len_eq] at hsize ⊢
    have hfill := fun m => getInterfaceDescriptor_fill_eq D self d m itf buf bufsize hbuf hsize
    refine ⟨(hfill mem).1, fun i hi => ?_, fun i hi mem2 => ?_, fun a ha => ?_⟩
    · rw [(hfill mem).2]
      exact memcpy_inside _ _ _ _ (by rw [hlen]; exact hi)
    · rw [(hfill mem).2, (hfill mem2).2, memcpy_inside _ _ _ _ (by rw [hlen]; exact hi),
        memcpy_inside _ _ _ _ (by rw [hlen]; exact hi)]
    · rw [(hfill mem).2]
      exact memcpy_outside _ _ _ _ (by rw [hlen]; exact ha)

/-- C1, at a concrete input: a fill of a 182-byte buffer at address 4096. -/
theorem getInterfaceDescriptor_length_and_fill_witness :
    ((4096 : Nat) ≠ 0 ∧ desc_len ≤ 182) ∧
    (sampleObj.getInterfaceDescriptor counterDevice (0, 1, 1, 4) rampMem 0 4096 182).ret =
      desc_len :=
  ⟨⟨by decide, by decide⟩,
   ((getInterfaceDescriptor_length_and_fill counterDevice sampleObj (0, 1, 1, 4) rampMem
      0).2.2.2 4096 182 (by decide) (by decide)).1⟩

/-- C2: for every non-null buffer and every `bufsize` below `desc_len` (so in
particular for `desc_len - 1`), `getInterfaceDescriptor` returns 0 and leaves
the whole memory, hence every byte of the output buffer, unchanged. -/
theorem getInterfaceDescriptor_buffer_too_small {δ : Type} (D : Device δ) (self : USBD_Audio)
    (d : δ) (mem : Mem) (itf buf bufsize : Nat) (hbuf : buf ≠ 0) (hsize : bufsize < desc_len) :
    (self.getInterfaceDescriptor D d mem itf buf bufsize).ret = 0 ∧
    (self.getInterfaceDescriptor D d mem itf buf bufsize).mem = mem := by
  unfold USBD_Audio.getInterfaceDescriptor
  simp only [if_neg hbuf, if_pos hsize, and_self]

/-- C2, at a concrete input: a buffer of `desc_len - 1` = 181 bytes. -/
theorem getInterfaceDescriptor_buffer_too_small_witness :
    ((4096 : Nat) ≠ 0 ∧ desc_len - 1 < desc_len) ∧
    (sampleObj.getInterfaceDescriptor counterDevice (0, 1, 1, 4) rampMem 0 4096
      (desc_len - 1)).ret = 0 ∧
    (sampleObj.getInterfaceDescriptor counterDevice (0, 1, 1, 4) rampMem 0 4096
      (desc_len - 1)).mem = rampMem :=
  ⟨⟨by decide, by decide⟩,
   getInterfaceDescriptor_buffer_too_small counterDevice sampleObj (0, 1, 1, 4) rampMem 0 4096
     (desc_len - 1) (by decide) (by decide)⟩

/-- C3: the code at a length query.  Whatever the device, the null-buffer call
has already asked the allocator for two interface numbers and for one endpoint
of each direction when it returns, and hands back the allocator state after
those three calls.  On the counting allocator started at (0, 1, 1, 4) the probe
leaves (2, 2, 2, 4), and the fill that follows is given interface number 2 and
asks the allocator a second time. -/
theorem getInterfaceDescriptor_length_query_allocates :
    (∀ (δ : Type) (D : Device δ) (self : USBD_Audio) (d : δ) (mem : Mem) (itf bufsize : Nat),
      (self.getInterfaceDescriptor D d mem itf 0 bufsize).calls =
        [DeviceCall.allocInterface 2, DeviceCall.allocEndpoint TUSB_DIR_IN,
         DeviceCall.allocEndpoint TUSB_DIR_OUT] ∧
      (self.getInterfaceDescriptor D d mem itf 0 bufsize).dev =
        (D.allocEndpoint (D.allocEndpoint (D.allocInterface d 2).2 TUSB_DIR_IN).2
          TUSB_DIR_OUT).2) ∧
    (sampleObj.getInterfaceDescriptor counterDevice (0, 1, 1, 4) rampMem 0 0 0).dev =
      (2, 2, 2, 4) ∧
    (sampleObj.getInterfaceDescriptor counterDevice (0, 1, 1, 4) rampMem 0 0 0).dev ≠
      (0, 1, 1, 4) ∧
    (sampleObj.getInterfaceDescriptor counterDevice
      (sampleObj.getInterfaceDescriptor counterDevice (0, 1, 1, 4) rampMem 0 0 0).dev
      rampMem 0 4096 182).mem (4096 + 2) = 2 ∧
    ((sampleObj.getInterfaceDescriptor counterDevice (0, 1, 1, 4) rampMem 0 0 0).calls ++
      (sampleObj.getInterfaceDescriptor counterDevice
        (sampleObj.getInterfaceDescriptor counterDevice (0, 1, 1, 4) rampMem 0 0 0).dev
        rampMem 0 4096 182).calls).count (DeviceCall.allocInterface 2) = 2 := by
  refine ⟨fun δ D self d mem itf bufsize => ?_, ?_, ?_, ?_, ?_⟩
  · simp [USBD_Audio.getInterfaceDescriptor]
  · decide
  · decide
  · decide
  · decide

/-! ## Buffer/transfer manager -/

theorem constTransport_readWithin (k : Nat) (data : List Nat) :
    ReadWithin (constTransport k data) := by
  intro st buf len
  simp [constTransport]

theorem updateRx_txCount {σ : Type} (T : Transport σ) (r : UpdateResult σ) (rxBuf rxCount : Nat) :
    (updateRx T r rxBuf rxCount).txCount = r.txCount := by
  unfold updateRx
  split <;> rfl

theorem updateRx_mem_outside {σ : Type} (T : Transport σ) (r : UpdateResult σ)
    (rxBuf rxCount a : Nat) (hT : ReadWithin T) (ha : a < rxBuf ∨ rxBuf + rxCount ≤ a) :
    (updateRx T r rxBuf rxCount).mem a = r.mem a := by
  unfold updateRx
  split
  · have hlen := hT r.st rxBuf rxCount
    exact memcpy_outside _ _ _ _ (by omega)
  · rfl

theorem updateRx_ok_false {σ : Type} (T : Transport σ) (r : UpdateResult σ) (rxBuf rxCount : Nat)
    (h : r.ok = false) : (updateRx T r rxBuf rxCount).ok = false := by
  unfold updateRx
  split
  · simp [h]
  · exact h

theorem updateTx_ok_false {σ : Type} (T : Transport σ) (st : σ) (mem : Mem) (txBuf : Nat)
    (txCount : Option Nat) : (updateTx T st mem txBuf txCount).ok = false := by
  cases txCount with
  | none => rfl
  | some n =>
    simp only [updateTx]
    split_ifs <;> rfl

/-- The outbound half, for a non-null buffer and `k` of `n` bytes accepted with
`k ≤ n`, ends in the state the specification describes. -/
theorem updateTx_spec {σ : Type} (T : Transport σ) (st : σ) (mem : Mem) (txBuf n : Nat)
    (htx : txBuf ≠ 0) (hn : n < SIZE_MOD) (hk : (T.tud_audio_write st mem txBuf n).1 ≤ n) :
    (updateTx T st mem txBuf (some n)).txCount =
      some (specTxOutcome mem txBuf n (T.tud_audio_write st mem txBuf n).1).2 ∧
    (updateTx T st mem txBuf (some n)).mem =
      (specTxOutcome mem txBuf n (T.tud_audio_write st mem txBuf n).1).1 ∧
    (updateTx T st mem txBuf (some n)).calls = [TransportCall.write txBuf n] := by
  have hu : u32 (T.tud_audio_write st mem txBuf n).1 = (T.tud_audio_write st mem txBuf n).1 := by
    unfold u32
    exact Nat.mod_eq_of_lt (by omega)
  have hsub : u32 (n + SIZE_MOD - (T.tud_audio_write st mem txBuf n).1) =
      n - (T.tud_audio_write st mem txBuf n).1 := by
    unfold u32
    rw [show n + SIZE_MOD - (T.tud_audio_write st mem txBuf n).1 =
      (n - (T.tud_audio_write st mem txBuf n).1) + SIZE_MOD by omega, Nat.add_mod_right]
    exact Nat.mod_eq_of_lt (by omega)
  simp only [updateTx, specTxOutcome, if_pos htx, hu, hsub]
  split_ifs <;> exact ⟨rfl, rfl, rfl⟩

/-- The outbound half when `k` of `N` bytes are accepted, `0 < k ≤ N`: the count
becomes `N - k` and the unsent bytes move to the front. -/
theorem updateTx_partial {σ : Type} (T : Transport σ) (st : σ) (mem : Mem) (txBuf N k : Nat)
    (htx : txBuf ≠ 0) (hN : N < SIZE_MOD) (hw : (T.tud_audio_write st mem txBuf N).1 = k)
    (hk0 : 0 < k) (hkN : k ≤ N) :
    (updateTx T st mem txBuf (some N)).txCount = some (N - k) ∧
    ∀ i, i < N - k → (updateTx T st mem txBuf (some N)).mem (txBuf + i) = mem (txBuf + (k + i)) := by
  obtain ⟨hc, hm, _⟩ := updateTx_spec T st mem txBuf N htx hN (by omega)
  rw [hw] at hc hm
  refine ⟨?_, fun i hi => ?_⟩
  · rw [hc]
    unfold specTxOutcome
    split_ifs with h1 h2
    · simp [h1]
    · omega
    · rfl
  · rw [hm]
    unfold specTxOutcome
    rw [if_neg (by omega), if_neg (by omega)]
    show memmove mem txBuf (txBuf + k) (N - k) (txBuf + i) = mem (txBuf + (k + i))
    rw [memmove_inside _ _ _ _ _ hi, Nat.add_assoc]

/-- C4: in the byte-oriented `update` with a non-null outbound buffer holding
`N` bytes (a `size_t` value) and a transport write that accepts `k` bytes,
`0 < k ≤ N`, the count cell holds `N - k` afterwards and, for every
`i < N - k`, the byte at offset `i` of the buffer is the original byte at
offset `k + i`; for `k = N` the count `N - k` is 0.  The inbound buffer is taken not to
overlap the outbound one, and the transport read to stay within its request. -/
theorem update8_outbound_compaction {σ : Type} (T : Transport σ) (st : σ) (mem : Mem)
    (txBuf N k rxBuf rxCount : Nat) (htx : txBuf ≠ 0) (hN : N < SIZE_MOD)
    (hw : (T.tud_audio_write st mem txBuf N).1 = k) (hk0 : 0 < k) (hkN : k ≤ N)
    (hT : ReadWithin T) (hsep : Separate txBuf N rxBuf rxCount) :
    (update8 T st mem txBuf (some N) rxBuf rxCount).txCount = some (N - k) ∧
    ∀ i, i < N - k →
      (update8 T st mem txBuf (some N) rxBuf rxCount).mem (txBuf + i) = mem (txBuf + (k + i)) := by
  obtain ⟨hc, hm⟩ := updateTx_partial T st mem txBuf N k htx hN hw hk0 hkN
  have hcount : (update8 T st mem txBuf (some N) rxBuf rxCount).txCount = some (N - k) := by
    unfold update8
    rw [updateRx_txCount, hc]
  refine ⟨hcount, fun i hi => ?_⟩
  unfold update8
  rw [updateRx_mem_outside T _ rxBuf rxCount _ hT (by unfold Separate at hsep; omega)]
  exact hm i hi

/-- C4, at a concrete input: 20 bytes at address 2000, 12 accepted, with an
inbound read of 2 bytes at address 1000 in the same call. -/
theorem update8_outbound_compaction_witness :
    ((2000 : Nat) ≠ 0 ∧ 20 < SIZE_MOD ∧ 0 < 12 ∧ 12 ≤ 20 ∧ Separate 2000 20 1000 2) ∧
    (update8 (constTransport 12 [9, 9]) () rampMem 2000 (some 20) 1000 2).txCount =
      some (20 - 12) ∧
    (update8 (constTransport 12 [9, 9]) () rampMem 2000 (some 20) 1000 2).mem (2000 + 7) =
      rampMem (2000 + (12 + 7)) :=
  ⟨⟨by decide, by decide, by decide, by decide, by decide⟩,
   (update8_outbound_compaction (constTransport 12 [9, 9]) () rampMem 2000 20 12 1000 2
     (by decide) (by decide) rfl (by decide) (by decide) (constTransport_readWithin _ _)
     (by decide)).1,
   (update8_outbound_compaction (constTransport 12 [9, 9]) () rampMem 2000 20 12 1000 2
     (by decide) (by decide) rfl (by decide) (by decide) (constTransport_readWithin _ _)
     (by decide)).2 7 (by decide)⟩

/-- C5: in the byte-oriented `update` with a non-null outbound buffer holding
`N > 0` bytes and a transport write that accepts 0 bytes, the call returns
false, the count cell still holds `N`, and every byte of the outbound buffer
(of any capacity `cap` not overlapping the inbound buffer) is unchanged. -/
theorem update8_write_refused {σ : Type} (T : Transport σ) (st : σ) (mem : Mem)
    (txBuf N rxBuf rxCount cap : Nat) (htx : txBuf ≠ 0) (hN : 0 < N)
    (hw : (T.tud_audio_write st mem txBuf N).1 = 0)
    (hT : ReadWithin T) (hsep : Separate txBuf cap rxBuf rxCount) :
    (update8 T st mem txBuf (some N) rxBuf rxCount).ok = false ∧
    (update8 T st mem txBuf (some N) rxBuf rxCount).txCount = some N ∧
    ∀ i, i < cap →
      (update8 T st mem txBuf (some N) rxBuf rxCount).mem (txBuf + i) = mem (txBuf + i) := by
  have htxr : updateTx T st mem txBuf (some N) =
      ⟨false, mem, some N, (T.tud_audio_write st mem txBuf N).2,
        [TransportCall.write txBuf N]⟩ := by
    have h0 : u32 0 = 0 := rfl
    simp only [updateTx, if_pos htx, hw, h0]
    rw [if_neg (by omega), if_pos trivial]
  unfold update8
  refine ⟨updateRx_ok_false T _ _ _ (updateTx_ok_false T st mem txBuf _), ?_, fun i hi => ?_⟩
  · rw [updateRx_txCount, htxr]
  · rw [updateRx_mem_outside T _ rxBuf rxCount _ hT (by unfold Separate at hsep; omega), htxr]

/-- C5, at a concrete input: 20 bytes at address 2000, none accepted. -/
theorem update8_write_refused_witness :
    ((2000 : Nat) ≠ 0 ∧ 0 < 20 ∧ Separate 2000 64 1000 2) ∧
    (update8 (constTransport 0 [9, 9]) () rampMem 2000 (some 20) 1000 2).ok = false ∧
    (update8 (constTransport 0 [9, 9]) () rampMem 2000 (some 20) 1000 2).txCount = some 20 ∧
    (update8 (constTransport 0 [9, 9]) () rampMem 2000 (some 20) 1000 2).mem (2000 + 19) =
      rampMem (2000 + 19) :=
  ⟨⟨by decide, by decide, by decide⟩,
   (update8_write_refused (constTransport 0 [9, 9]) () rampMem 2000 20 1000 2 64
     (by decide) (by decide) rfl (constTransport_readWithin _ _) (by decide)).1,
   (update8_write_refused (constTransport 0 [9, 9]) () rampMem 2000 20 1000 2 64
     (by decide) (by decide) rfl (constTransport_readWithin _ _) (by decide)).2.1,
   (update8_write_refused (constTransport 0 [9, 9]) () rampMem 2000 20 1000 2 64
     (by decide) (by decide) rfl (constTransport_readWithin _ _) (by decide)).2.2 19
     (by decide)⟩

/-- C6: the code.  The local `ok` starts as `false` and is only ever assigned
`false`, so the byte-oriented `update` returns false on every call; at the
concrete call where the write accepts all 4 offered bytes and the read
delivers exactly the 2 requested bytes (count cleared, bytes stored at the
inbound buffer) it still returns false, and so it does when both sides are
skipped. -/
theorem update8_never_reports_success :
    (∀ (σ : Type) (T : Transport σ) (st : σ) (mem : Mem) (txBuf : Nat) (txCount : Option Nat)
      (rxBuf rxCount : Nat), (update8 T st mem txBuf txCount rxBuf rxCount).ok = false) ∧
    ((update8 (constTransport 4 [7, 8]) () rampMem 2000 (some 4) 1000 2).ok = false ∧
     (update8 (constTransport 4 [7, 8]) () rampMem 2000 (some 4) 1000 2).txCount = some 0 ∧
     (update8 (constTransport 4 [7, 8]) () rampMem 2000 (some 4) 1000 2).calls =
       [TransportCall.write 2000 4, TransportCall.read 1000 2] ∧
     ((constTransport 4 [7, 8]).tud_audio_read () 1000 2).1.1 = 2 ∧
     (update8 (constTransport 4 [7, 8]) () rampMem 2000 (some 4) 1000 2).mem 1000 = 7 ∧
     (update8 (constTransport 4 [7, 8]) () rampMem 2000 (some 4) 1000 2).mem 1001 = 8) ∧
    (update8 (constTransport 4 [7, 8]) () rampMem 0 none 0 0).ok = false := by
  refine ⟨fun σ T st mem txBuf txCount rxBuf rxCount => ?_, ?_, ?_⟩
  · exact updateRx_ok_false T _ _ _ (updateTx_ok_false T st mem txBuf txCount)
  · decide
  · decide

/-- C7: the two sides of the byte-oriented `update` are independent.  Whatever
the outbound arguments and whatever the write answers, a non-null `rxBuf` with
`rxCount > 0` gets exactly one transport read, made with `rxBuf` and `rxCount`,
as the last transport call.  And whatever the read answers or delivers (within
its request, into a buffer not overlapping the outbound one), the count cell
and the outbound buffer end in the state the specification gives for the
number `k ≤ n` of bytes the write accepted, the same as when the inbound side
is skipped. -/
theorem update8_sides_independent {σ : Type} (T : Transport σ) (st : σ) (mem : Mem)
    (rxBuf rxCount : Nat) :
    (∀ txBuf txCount, rxBuf ≠ 0 → 0 < rxCount →
      (update8 T st mem txBuf txCount rxBuf rxCount).calls =
        (update8 T st mem txBuf txCount 0 0).calls ++ [TransportCall.read rxBuf rxCount] ∧
      (update8 T st mem txBuf txCount rxBuf rxCount).calls.count
        (TransportCall.read rxBuf rxCount) = 1) ∧
    (∀ txBuf n cap, txBuf ≠ 0 → n < SIZE_MOD → (T.tud_audio_write st mem txBuf n).1 ≤ n →
      ReadWithin T → Separate txBuf cap rxBuf rxCount →
      (update8 T st mem txBuf (some n) rxBuf rxCount).txCount =
        some (specTxOutcome mem txBuf n (T.tud_audio_write st mem txBuf n).1).2 ∧
      (update8 T st mem txBuf (some n) rxBuf rxCount).txCount =
        (update8 T st mem txBuf (some n) 0 0).txCount ∧
      ∀ i, i < cap →
        (update8 T st mem txBuf (some n) rxBuf rxCount).mem (txBuf + i) =
          (specTxOutcome mem txBuf n (T.tud_audio_write st mem txBuf n).1).1 (txBuf + i) ∧
        (update8 T st mem txBuf (some n) rxBuf rxCount).mem (txBuf + i) =
          (update8 T st mem txBuf (some n) 0 0).mem (txBuf + i)) := by
  have hskip : ∀ r : UpdateResult σ, updateRx T r 0 0 = r := fun r => by simp [updateRx]
  refine ⟨fun txBuf txCount hrx hcnt => ?_, fun txBuf n cap htx hn hk hT hsep => ?_⟩
  · have hcalls : (update8 T st mem txBuf txCount rxBuf rxCount).calls =
        (update8 T st mem txBuf txCount 0 0).calls ++ [TransportCall.read rxBuf rxCount] := by
      simp only [update8, hskip]
      simp only [updateRx, if_pos (And.intro hrx hcnt)]
    refine ⟨hcalls, ?_⟩
    rw [hcalls]
    simp only [update8, hskip]
    cases txCount with
    | none => simp [updateTx]
    | some n =>
      simp only [updateTx]
      split_ifs <;> simp
  · obtain ⟨hc, hm, _⟩ := updateTx_spec T st mem txBuf n htx hn hk
    simp only [update8, hskip, updateRx_txCount]
    refine ⟨hc, trivial, fun i hi => ?_⟩
    rw [updateRx_mem_outside T _ rxBuf rxCount _ hT (by unfold Separate at hsep; omega), hm]
    exact ⟨rfl, rfl⟩

/-- C7, at a concrete input: the write accepts 0 of 20 bytes and the read
delivers 1 of the 2 bytes asked for. -/
theorem update8_sides_independent_witness :
    ((1000 : Nat) ≠ 0 ∧ 0 < 2 ∧ (2000 : Nat) ≠ 0 ∧ 20 < SIZE_MOD ∧
      ((constTransport 0 [9]).tud_audio_write () rampMem 2000 20).1 ≤ 20 ∧
      Separate 2000 64 1000 2) ∧
    (update8 (constTransport 0 [9]) () rampMem 2000 (some 20) 1000 2).calls.count
      (TransportCall.read 1000 2) = 1 ∧
    (update8 (constTransport 0 [9]) () rampMem 2000 (some 20) 1000 2).txCount =
      some (specTxOutcome rampMem 2000 20
        ((constTransport 0 [9]).tud_audio_write () rampMem 2000 20).1).2 :=
  ⟨⟨by decide, by decide, by decide, by decide, by decide, by decide⟩,
   ((update8_sides_independent (constTransport 0 [9]) () rampMem 1000 2).1 2000 (some 20)
     (by decide) (by decide)).2,
   ((update8_sides_independent (constTransport 0 [9]) () rampMem 1000 2).2 2000 20 64
     (by decide) (by decide) (by decide) (constTransport_readWithin _ _) (by decide)).1⟩

/-! ## Construction and the no-argument update -/

/-- C8: the code.  The constructor computes `bufferSize` as the 16-bit
truncation of `channels * bitDepth * bufferSampleDepth`, with the bit depth in
bits and no division by 8, and hands that value to both `malloc` calls; for
(1, 16, 32) that is 512 bytes for each buffer, where
`channels * (bitDepth / 8) * bufferSampleDepth` is 64. -/
theorem ctor_bufferSize_counts_bits :
    (∀ (δ : Type) (D : Device δ) (d : δ) (strid mallocTx mallocRx c b n : Nat),
      (USBD_Audio.ctor D d strid mallocTx mallocRx c b n).obj.bufferSize =
        (c % 256 * (b % 256) * (n % 65536)) % 65536 ∧
      (USBD_Audio.ctor D d strid mallocTx mallocRx c b n).mallocs =
        if n % 65536 ≠ 0 then
          [(c % 256 * (b % 256) * (n % 65536)) % 65536,
           (c % 256 * (b % 256) * (n % 65536)) % 65536]
        else []) ∧
    (USBD_Audio.ctor counterDevice (0, 1, 1, 4) 0 2000 1000 1 16 32).obj.bufferSize = 512 ∧
    (USBD_Audio.ctor counterDevice (0, 1, 1, 4) 0 2000 1000 1 16 32).mallocs = [512, 512] ∧
    1 * (16 / 8) * 32 = 64 := by
  refine ⟨fun δ D d strid mallocTx mallocRx c b n => ⟨rfl, ?_⟩, ?_, ?_, ?_⟩
  · simp only [USBD_Audio.ctor, u16, u8]
  · decide
  · decide
  · decide

/-- C9, as stated, fails: with the outbound counter at 20 and a transport that
accepts 12 bytes, `update()` offers the transport 40 bytes (20 two-byte
samples) and leaves the counter at 14, not at 20 - 12 = 8. -/
theorem update_noarg_counter_twenty_accept_twelve :
    (USBD_Audio.update (constTransport 12 []) { sampleObj with txBufCount := 20 } ()
      rampMem).map (fun r => r.obj.txBufCount) = some 14 ∧
    (USBD_Audio.update (constTransport 12 []) { sampleObj with txBufCount := 20 } ()
      rampMem).map (fun r => r.obj.txBufCount) ≠ some (20 - 12) ∧
    (USBD_Audio.update (constTransport 12 []) { sampleObj with txBufCount := 20 } ()
      rampMem).map (fun r => r.calls) = some [TransportCall.write 2000 40] := by
  refine ⟨?_, ?_, ?_⟩
  · decide
  · decide
  · decide

/-- C9, amended: the no-argument `update()` is the two-byte-sample form applied
to the own buffers and counters of the object.  With internal buffers, the
outbound counter at `N` samples (`2 * N` a `size_t` value) and a transport write
that accepts `k` of the `2 * N` offered bytes, `0 < k < 2 * N`, it returns, the
counter is `(2 * N - k) / 2` afterwards and the first `2 * N - k` bytes of the
tx buffer are the original bytes `k .. 2 * N - 1`. -/
theorem update_noarg_two_byte_compaction {σ : Type} (T : Transport σ) (st : σ) (mem : Mem)
    (self : USBD_Audio) (tb rb N k : Nat) (htxb : self.txBuffer = some tb)
    (hrxb : self.rxBuffer = some rb) (htb : tb ≠ 0) (hN : self.txBufCount = N)
    (h2N : N * 2 < SIZE_MOD) (hw : (T.tud_audio_write st mem tb (N * 2)).1 = k)
    (hk0 : 0 < k) (hk : k < N * 2) (hT : ReadWithin T)
    (hsep : Separate tb (N * 2) rb (u32 (self.rxBufCount * 2))) :
    ∃ r r16, self.update T st mem = some r ∧
      update16 T st mem tb (some self.txBufCount) rb self.rxBufCount = some r16 ∧
      r.ok = r16.ok ∧ r.mem = r16.mem ∧ r.calls = r16.calls ∧
      some r.obj.txBufCount = r16.txCount ∧
      r.obj.txBufCount = (N * 2 - k) / 2 ∧
      ∀ i, i < N * 2 - k → r.mem (tb + i) = mem (tb + (k + i)) := by
  have hu : u32 (N * 2) = N * 2 := Nat.mod_eq_of_lt h2N
  obtain ⟨hc, hm⟩ := updateTx_partial T st mem tb (N * 2) k htb h2N hw hk0 (Nat.le_of_lt hk)
  simp only [USBD_Audio.update, htxb, hrxb, update16]
  refine ⟨_, _, rfl, rfl, rfl, rfl, rfl, ?_, ?_, ?_⟩
  · simp only [hN, hu, update8, updateRx_txCount, hc, Option.map_some', Option.getD_some]
  · simp only [hN, hu, update8, updateRx_txCount, hc, Option.map_some', Option.getD_some]
  · intro i hi
    simp only [hN, hu, update8]
    rw [updateRx_mem_outside T _ rb _ _ hT (by unfold Separate at hsep; omega)]
    exact hm i hi

/-- C9, amended, at the input of the end-to-end scenario: counter 20, 12 bytes
accepted; the counter becomes 14. -/
theorem update_noarg_two_byte_compaction_witness :
    ((2000 : Nat) ≠ 0 ∧ 20 * 2 < SIZE_MOD ∧ 0 < 12 ∧ 12 < 20 * 2 ∧
      Separate 2000 (20 * 2) 1000 (u32 (0 * 2))) ∧
    ∃ r r16, USBD_Audio.update (constTransport 12 []) { sampleObj with txBufCount := 20 } ()
        rampMem = some r ∧
      update16 (constTransport 12 []) () rampMem 2000 (some 20) 1000 0 = some r16 ∧
      r.ok = r16.ok ∧ r.mem = r16.mem ∧ r.calls = r16.calls ∧
      some r.obj.txBufCount = r16.txCount ∧
      r.obj.txBufCount = (20 * 2 - 12) / 2 ∧
      ∀ i, i < 20 * 2 - 12 → r.mem (2000 + i) = rampMem (2000 + (12 + i)) :=
  ⟨⟨by decide, by decide, by decide, by decide, by decide⟩,
   update_noarg_two_byte_compaction (constTransport 12 []) () rampMem
     { sampleObj with txBufCount := 20 } 2000 1000 20 12 rfl rfl (by decide) rfl (by decide)
     rfl (by decide) (by decide) (constTransport_readWithin _ _) (by decide)⟩

/-! ## Registration -/

theorem begin_of_alreadyAdded {δ : Type} (D : Device δ) (o : USBD_Audio) (d : δ)
    (h : o.alreadyAdded = true) : o.begin D d = ⟨false, o, d, []⟩ := by
  simp [USBD_Audio.begin, h]

theorem begin_ret_true {δ : Type} (D : Device δ) (o : USBD_Audio) (d : δ)
    (h : (o.begin D d).ret = true) : (o.begin D d).obj.alreadyAdded = true := by
  unfold USBD_Audio.begin at h ⊢
  by_cases h1 : o.alreadyAdded = true
  · simp [h1] at h
  · by_cases h2 : (D.addInterface d).1 = true
    · simp [h1, h2]
    · simp [h1, h2] at h

theorem beginSeq_of_alreadyAdded {δ : Type} (D : Device δ) (ds : List δ) (o : USBD_Audio)
    (h : o.alreadyAdded = true) :
    ∀ b ∈ beginSeq D o ds, b.ret = false ∧ b.calls = [] ∧ b.obj = o := by
  induction ds with
  | nil => simp [beginSeq]
  | cons d ds ih =>
    intro b hb
    simp only [beginSeq, begin_of_alreadyAdded D o d h, List.mem_cons] at hb
    rcases hb with hb | hb
    · subst hb
      exact ⟨rfl, rfl, rfl⟩
    · exact ih b hb

/-- C10: `begin()` registers at most once.  A call on an object whose flag
`alreadyAdded` is set returns false, makes no call to the device (so none to
`addInterface`) and leaves object and device as they were; a call that returns
true leaves the flag set; a call on a fresh object whose `addInterface` fails
returns false and leaves the flag clear; the no-argument `update()` does not
touch the flag.  Hence in every run of `begin()` calls on one object, whatever
the device does in between, once a call has returned true every later call
returns false, calls nothing and leaves the object unchanged. -/
theorem begin_registers_at_most_once {δ : Type} (D : Device δ) :
    (∀ (o : USBD_Audio) (d : δ), o.alreadyAdded = true →
      (o.begin D d).ret = false ∧ (o.begin D d).calls = [] ∧ (o.begin D d).obj = o ∧
      (o.begin D d).dev = d) ∧
    (∀ (o : USBD_Audio) (d : δ), (o.begin D d).ret = true →
      (o.begin D d).obj.alreadyAdded = true) ∧
    (∀ (o : USBD_Audio) (d : δ), o.alreadyAdded = false → (D.addInterface d).1 = false →
      (o.begin D d).ret = false ∧ (o.begin D d).obj.alreadyAdded = false ∧
      (o.begin D d).calls = [DeviceCall.addInterface]) ∧
    (∀ (σ : Type) (T : Transport σ) (o : USBD_Audio) (st : σ) (mem : Mem),
      (o.update T st mem).map (fun r => r.obj.alreadyAdded) =
        (o.update T st mem).map (fun _ => o.alreadyAdded)) ∧
    (∀ (o : USBD_Audio) (ds : List δ),
      (beginSeq D o ds).Pairwise
        (fun a b => a.ret = true → b.ret = false ∧ b.calls = [] ∧ b.obj = a.obj)) := by
  refine ⟨fun o d h => ?_, fun o d h => begin_ret_true D o d h, fun o d h hf => ?_,
    fun σ T o st mem => ?_, fun o ds => ?_⟩
  · rw [begin_of_alreadyAdded D o d h]
    exact ⟨rfl, rfl, rfl, rfl⟩
  · simp [USBD_Audio.begin, h, hf]
  · unfold USBD_Audio.update
    split
    · split <;> rfl
    · rfl
  · induction ds generalizing o with
    | nil => exact List.Pairwise.nil
    | cons d ds ih =>
      simp only [beginSeq, List.pairwise_cons]
      exact ⟨fun b hb hret =>
        beginSeq_of_alreadyAdded D ds _ (begin_ret_true D o d hret) b hb, ih _⟩

/-- C10, at concrete inputs: a second `begin()` on the registered object, and
a `begin()` refused by the registry. -/
theorem begin_registers_at_most_once_witness :
    (({ sampleObj with alreadyAdded := true } : USBD_Audio).alreadyAdded = true ∧
      sampleObj.alreadyAdded = false ∧ (refusingDevice.addInterface (2, 2, 2, 4)).1 = false ∧
      (sampleObj.begin counterDevice (2, 2, 2, 4)).ret = true) ∧
    (({ sampleObj with alreadyAdded := true } : USBD_Audio).begin counterDevice (2, 2, 2, 4)).ret
      = false ∧
    (sampleObj.begin counterDevice (2, 2, 2, 4)).obj.alreadyAdded = true ∧
    (sampleObj.begin refusingDevice (2, 2, 2, 4)).ret = false ∧
    (beginSeq counterDevice sampleObj [(2, 2, 2, 4), (2, 2, 2, 4), (2, 2, 2, 4)]).map
      (fun b => (b.ret, b.calls)) =
      [(true, [DeviceCall.addInterface]), (false, []), (false, [])] :=
  ⟨⟨by decide, by decide, by decide, by decide⟩,
   ((begin_registers_at_most_once counterDevice).1 { sampleObj with alreadyAdded := true }
     (2, 2, 2, 4) (by decide)).1,
   (begin_registers_at_most_once counterDevice).2.1 sampleObj (2, 2, 2, 4) (by decide),
   ((begin_registers_at_most_once refusingDevice).2.2.1 sampleObj (2, 2, 2, 4) (by decide)
     (by decide)).1,
   by decide⟩

/-! ## The serialised blocks -/

theorem memcpy_readback (mem : Mem) (buf : Nat) (xs : List Nat) :
    (List.range xs.length).map (fun i => memcpy mem buf xs (buf + i)) = xs := by
  apply List.ext_getElem
  · simp
  · intro i h1 h2
    simp only [List.getElem_map, List.getElem_range]
    rw [memcpy_inside _ _ _ _ h2, List.getD_eq_getElem _ _ h2]

/-- After a fill into a large enough non-null buffer, the bytes reported as
written are `descriptorBytes`. -/
theorem filled_eq {δ : Type} (D : Device δ) (self : USBD_Audio) (d : δ) (mem : Mem)
    (itf buf bufsize : Nat) (hbuf : buf ≠ 0) (hsize : desc_len ≤ bufsize) :
    self.filled D d mem itf buf bufsize = descriptorBytes D self d := by
  rw [desc_len_eq] at hsize
  obtain ⟨hret, hmem⟩ := getInterfaceDescriptor_fill_eq D self d mem itf buf bufsize hbuf hsize
  unfold USBD_Audio.filled DescResult.written
  rw [hret, hmem]
  have hlen : (descriptorBytes D self d).length = 182 := descBlocks_length _ _ _ _ _ _ _
  rw [← hlen]
  exact memcpy_readback mem buf _

/-- Decoding `descriptorBytes` gives back the 17 blocks of `descBlocks`. -/
theorem decode_descriptorBytes {δ : Type} (D : Device δ) (self : USBD_Audio) (d : δ) :
    decode (descriptorBytes D self d) =
      descBlocks self (u8 (D.allocInterface d 2).1) 2
        (u8 (D.allocEndpoint (D.allocInterface d 2).2 TUSB_DIR_IN).1)
        (u8 (D.allocEndpoint (D.allocEndpoint (D.allocInterface d 2).2 TUSB_DIR_IN).2
          TUSB_DIR_OUT).1) 100 512 :=
  rfl

/-- C11: in the bytes `out` written by a successful fill, decoded into blocks,
the blocks 4, 6, 7, 9 are the USB-streaming input terminal, the analog output
terminal, the analog input terminal and the USB-streaming output terminal, and
the associated-terminal field (offset 6) of each equals the terminal ID
(offset 3) of the terminal two blocks away in its path: 2 and 4 name each
other, 5 and 7 name each other. -/
theorem filled_terminals_name_partner {δ : Type} (D : Device δ) (self : USBD_Audio) (d : δ)
    (mem : Mem) (itf buf bufsize : Nat) (out : List Nat) (hbuf : buf ≠ 0)
    (hsize : desc_len ≤ bufsize) (hout : out = self.filled D d mem itf buf bufsize) :
    ((fld (blockOf out 4) 2 = AUDIO_CS_AC_INTERFACE_INPUT_TERMINAL ∧
        fld16 (blockOf out 4) 4 = 0x101) ∧
     (fld (blockOf out 6) 2 = AUDIO_CS_AC_INTERFACE_OUTPUT_TERMINAL ∧
        fld16 (blockOf out 6) 4 = 0x601) ∧
     (fld (blockOf out 7) 2 = AUDIO_CS_AC_INTERFACE_INPUT_TERMINAL ∧
        fld16 (blockOf out 7) 4 = 0x601) ∧
     (fld (blockOf out 9) 2 = AUDIO_CS_AC_INTERFACE_OUTPUT_TERMINAL ∧
        fld16 (blockOf out 9) 4 = 0x101)) ∧
    (fld (blockOf out 4) 6 = fld (blockOf out 6) 3 ∧
     fld (blockOf out 6) 6 = fld (blockOf out 4) 3 ∧
     fld (blockOf out 7) 6 = fld (blockOf out 9) 3 ∧
     fld (blockOf out 9) 6 = fld (blockOf out 7) 3) ∧
    (fld (blockOf out 4) 3 = 2 ∧ fld (blockOf out 6) 3 = 4 ∧
     fld (blockOf out 7) 3 = 5 ∧ fld (blockOf out 9) 3 = 7) := by
  rw [hout, filled_eq D self d mem itf buf bufsize hbuf hsize]
  simp only [blockOf, decode_descriptorBytes]
  exact ⟨⟨⟨rfl, rfl⟩, ⟨rfl, rfl⟩, ⟨rfl, rfl⟩, ⟨rfl, rfl⟩⟩, ⟨rfl, rfl, rfl, rfl⟩, ⟨rfl, rfl, rfl, rfl⟩⟩

/-- C11, at the sample fill. -/
theorem filled_terminals_name_partner_witness :
    ((4096 : Nat) ≠ 0 ∧ desc_len ≤ 182) ∧
    (fld (blockOf sampleOut 4) 6 = fld (blockOf sampleOut 6) 3 ∧
     fld (blockOf sampleOut 6) 6 = fld (blockOf sampleOut 4) 3 ∧
     fld (blockOf sampleOut 7) 6 = fld (blockOf sampleOut 9) 3 ∧
     fld (blockOf sampleOut 9) 6 = fld (blockOf sampleOut 7) 3) :=
  ⟨⟨by decide, by decide⟩,
   (filled_terminals_name_partner counterDevice sampleObj (0, 1, 1, 4) rampMem 0 4096 182
     sampleOut (by decide) (by decide) rfl).2.1⟩

/-- The sample fill wrote `descriptorBytes` of the sample object. -/
theorem sampleOut_eq : sampleOut = descriptorBytes counterDevice sampleObj (0, 1, 1, 4) :=
  filled_eq counterDevice sampleObj (0, 1, 1, 4) rampMem 0 4096 182 (by decide) (by decide)

/-- C12: the code.  In the bytes written by a fill the two feature-unit blocks
(blocks 5 and 8) carry their own unit ID in the source-id field (offset 4): 3
and 6, where the input terminals that precede them (blocks 4 and 7) have the
IDs 2 and 5.  This is so for every object and allocator, and in the sample
fill. -/
theorem filled_feature_unit_source_is_own_id :
    (∀ (δ : Type) (D : Device δ) (self : USBD_Audio) (d : δ),
      (fld (blockOf (descriptorBytes D self d) 5) 2 = AUDIO_CS_AC_INTERFACE_FEATURE_UNIT ∧
       fld (blockOf (descriptorBytes D self d) 8) 2 = AUDIO_CS_AC_INTERFACE_FEATURE_UNIT) ∧
      (fld (blockOf (descriptorBytes D self d) 5) 4 = 3 ∧
       fld (blockOf (descriptorBytes D self d) 5) 3 = 3 ∧
       fld (blockOf (descriptorBytes D self d) 4) 3 = 2) ∧
      (fld (blockOf (descriptorBytes D self d) 8) 4 = 6 ∧
       fld (blockOf (descriptorBytes D self d) 8) 3 = 6 ∧
       fld (blockOf (descriptorBytes D self d) 7) 3 = 5)) ∧
    (fld (blockOf sampleOut 5) 4 = fld (blockOf sampleOut 5) 3 ∧
     fld (blockOf sampleOut 5) 4 ≠ fld (blockOf sampleOut 4) 3 ∧
     fld (blockOf sampleOut 8) 4 = fld (blockOf sampleOut 8) 3 ∧
     fld (blockOf sampleOut 8) 4 ≠ fld (blockOf sampleOut 7) 3) := by
  refine ⟨fun δ D self d => ?_, ?_⟩
  · simp only [blockOf, decode_descriptorBytes]
    exact ⟨⟨rfl, rfl⟩, ⟨rfl, rfl, rfl⟩, ⟨rfl, rfl, rfl⟩⟩
  · rw [sampleOut_eq]
    simp only [blockOf, decode_descriptorBytes]
    decide

/-- C13: in the bytes `out` written by a successful fill, the blocks 3 to 9 are
the clock source, USB-streaming input terminal, first feature unit, analog
output terminal, analog input terminal, second feature unit and USB-streaming
output terminal, and their entity IDs (offset 3) are 1, 2, 3, 4, 5, 6, 7 in
that order; the clock-id field of every terminal (offset 7 of an input
terminal, offset 8 of an output terminal) is the ID of the clock source; the
source-id field (offset 7) of each output terminal is the ID of the feature
unit emitted just before it; and the terminal link (offset 3) of the
class-specific streaming interface (block 12) is the ID of the USB-streaming
input terminal. -/
theorem filled_id_chain {δ : Type} (D : Device δ) (self : USBD_Audio) (d : δ)
    (mem : Mem) (itf buf bufsize : Nat) (out : List Nat) (hbuf : buf ≠ 0)
    (hsize : desc_len ≤ bufsize) (hout : out = self.filled D d mem itf buf bufsize) :
    (List.range 7).map (fun j => fld (blockOf out (3 + j)) 2) =
      [AUDIO_CS_AC_INTERFACE_CLOCK_SOURCE, AUDIO_CS_AC_INTERFACE_INPUT_TERMINAL,
       AUDIO_CS_AC_INTERFACE_FEATURE_UNIT, AUDIO_CS_AC_INTERFACE_OUTPUT_TERMINAL,
       AUDIO_CS_AC_INTERFACE_INPUT_TERMINAL, AUDIO_CS_AC_INTERFACE_FEATURE_UNIT,
       AUDIO_CS_AC_INTERFACE_OUTPUT_TERMINAL] ∧
    (List.range 7).map (fun j => fld (blockOf out (3 + j)) 3) = [1, 2, 3, 4, 5, 6, 7] ∧
    ((List.range 7).map (fun j => fld (blockOf out (3 + j)) 3)).Nodup ∧
    (fld (blockOf out 4) 7 = fld (blockOf out 3) 3 ∧
     fld (blockOf out 6) 8 = fld (blockOf out 3) 3 ∧
     fld (blockOf out 7) 7 = fld (blockOf out 3) 3 ∧
     fld (blockOf out 9) 8 = fld (blockOf out 3) 3) ∧
    (fld (blockOf out 6) 7 = fld (blockOf out 5) 3 ∧
     fld (blockOf out 9) 7 = fld (blockOf out 8) 3) ∧
    (fld (blockOf out 12) 2 = AUDIO_CS_AS_INTERFACE_AS_GENERAL ∧
     fld (blockOf out 12) 3 = fld (blockOf out 4) 3) := by
  rw [hout, filled_eq D self d mem itf buf bufsize hbuf hsize]
  simp only [blockOf, decode_descriptorBytes]
  refine ⟨rfl, rfl, ?_, ⟨rfl, rfl, rfl, rfl⟩, ⟨rfl, rfl⟩, ⟨rfl, rfl⟩⟩
  have h : (List.range 7).map (fun j => fld ((descBlocks self (u8 (D.allocInterface d 2).1) 2
      (u8 (D.allocEndpoint (D.allocInterface d 2).2 TUSB_DIR_IN).1)
      (u8 (D.allocEndpoint (D.allocEndpoint (D.allocInterface d 2).2 TUSB_DIR_IN).2
        TUSB_DIR_OUT).1) 100 512).getD (3 + j) []) 3) = [1, 2, 3, 4, 5, 6, 7] := rfl
  rw [h]
  decide

/-- C13, at the sample fill. -/
theorem filled_id_chain_witness :
    ((4096 : Nat) ≠ 0 ∧ desc_len ≤ 182) ∧
    (List.range 7).map (fun j => fld (blockOf sampleOut (3 + j)) 3) = [1, 2, 3, 4, 5, 6, 7] ∧
    fld (blockOf sampleOut 12) 3 = fld (blockOf sampleOut 4) 3 :=
  ⟨⟨by decide, by decide⟩,
   (filled_id_chain counterDevice sampleObj (0, 1, 1, 4) rampMem 0 4096 182 sampleOut
     (by decide) (by decide) rfl).2.1,
   (filled_id_chain counterDevice sampleObj (0, 1, 1, 4) rampMem 0 4096 182 sampleOut
     (by decide) (by decide) rfl).2.2.2.2.2.2⟩

/-! ## The two-byte-sample form -/

/-- C14: the two-byte-sample `update(txBuf, &n, rxBuf, m)`, for sample counts
whose doubles are `size_t` values, returns and is the byte-oriented `update` run
on the same memory with outbound byte count `2 * n` and inbound request
`2 * m`: same transport calls, same memory, same boolean, same transport state,
and the count cell holds the byte-oriented result divided by 2.  Hence, when the
buffer is non-null and the transport accepts an even number `k ≤ 2 * n` of
bytes, the reported sample count is `n - k / 2`. -/
theorem update16_refines_update8 {σ : Type} (T : Transport σ) (st : σ) (mem : Mem)
    (txBuf n rxBuf m : Nat) (hn : n * 2 < SIZE_MOD) (hm : m * 2 < SIZE_MOD) :
    update16 T st mem txBuf (some n) rxBuf m = some (specUpdate16 T st mem txBuf n rxBuf m) ∧
    ((specUpdate16 T st mem txBuf n rxBuf m).calls =
        (update8 T st mem txBuf (some (2 * n)) rxBuf (2 * m)).calls ∧
     (specUpdate16 T st mem txBuf n rxBuf m).mem =
        (update8 T st mem txBuf (some (2 * n)) rxBuf (2 * m)).mem ∧
     (specUpdate16 T st mem txBuf n rxBuf m).ok =
        (update8 T st mem txBuf (some (2 * n)) rxBuf (2 * m)).ok ∧
     (specUpdate16 T st mem txBuf n rxBuf m).st =
        (update8 T st mem txBuf (some (2 * n)) rxBuf (2 * m)).st ∧
     (specUpdate16 T st mem txBuf n rxBuf m).txCount =
        (update8 T st mem txBuf (some (2 * n)) rxBuf (2 * m)).txCount.map (fun c => c / 2)) ∧
    (∀ k, txBuf ≠ 0 → (T.tud_audio_write st mem txBuf (2 * n)).1 = k → k ≤ 2 * n → k % 2 = 0 →
      (update16 T st mem txBuf (some n) rxBuf m).map (fun r => r.txCount) =
        some (some (n - k / 2))) := by
  have hun : u32 (n * 2) = 2 * n := by
    unfold u32
    rw [Nat.mod_eq_of_lt hn, Nat.mul_comm]
  have hum : u32 (m * 2) = 2 * m := by
    unfold u32
    rw [Nat.mod_eq_of_lt hm, Nat.mul_comm]
  have hrefine : update16 T st mem txBuf (some n) rxBuf m =
      some (specUpdate16 T st mem txBuf n rxBuf m) := by
    simp only [update16, specUpdate16, hun, hum]
  refine ⟨hrefine, ⟨rfl, rfl, rfl, rfl, rfl⟩, fun k htx hw hk heven => ?_⟩
  obtain ⟨hc, _, _⟩ := updateTx_spec T st mem txBuf (2 * n) htx (by omega) (by omega)
  rw [hrefine]
  simp only [Option.map_some', specUpdate16, update8, updateRx_txCount, hc, hw, specTxOutcome]
  split_ifs with h1 h2
  · simp only [Option.some.injEq]
    omega
  · simp only [Option.some.injEq]
    omega
  · simp only [Option.some.injEq]
    omega

/-- C14, at a concrete input: 20 samples at address 2000, the transport
accepts 12 bytes, 2 samples requested at address 1000. -/
theorem update16_refines_update8_witness :
    (20 * 2 < SIZE_MOD ∧ 2 * 2 < SIZE_MOD ∧ (2000 : Nat) ≠ 0 ∧ 12 ≤ 2 * 20 ∧ 12 % 2 = 0) ∧
    update16 (constTransport 12 [9]) () rampMem 2000 (some 20) 1000 2 =
      some (specUpdate16 (constTransport 12 [9]) () rampMem 2000 20 1000 2) ∧
    (update16 (constTransport 12 [9]) () rampMem 2000 (some 20) 1000 2).map
      (fun r => r.txCount) = some (some (20 - 12 / 2)) :=
  ⟨⟨by decide, by decide, by decide, by decide, by decide⟩,
   (update16_refines_update8 (constTransport 12 [9]) () rampMem 2000 20 1000 2 (by decide)
     (by decide)).1,
   (update16_refines_update8 (constTransport 12 [9]) () rampMem 2000 20 1000 2 (by decide)
     (by decide)).2.2 12 (by decide) rfl (by decide) (by decide)⟩

/-! ## Block contents: policy constants -/

/-- The blocks depend on the object only through `_strid` and the three string
indices. -/
theorem descBlocks_congr (self1 self2 : USBD_Audio) (h1 : self1._strid = self2._strid)
    (h2 : self1.featureUnitStrIndex = self2.featureUnitStrIndex)
    (h3 : self1.inputTerminalStrIndex = self2.inputTerminalStrIndex)
    (h4 : self1.outputTerminalStrIndex = self2.outputTerminalStrIndex)
    (itfNum itfCount ep_in ep_out pi mps : Nat) :
    descBlocks self1 itfNum itfCount ep_in ep_out pi mps =
      descBlocks self2 itfNum itfCount ep_in ep_out pi mps := by
  simp only [descBlocks, h1, h2, h3, h4]

/-- C15: the bytes written by a fill do not depend on the audio configuration.
Two objects with the same string indices (whatever their channels, bit depth,
buffer depth, buffer size, buffers, counters), run on the same allocator state
and memory, give the same result of `getInterfaceDescriptor` and the same
written bytes; and after a successful fill the Type I format block (block 13)
declares a 2-byte subslot (offset 4) and 16-bit resolution (offset 5), whatever
the configured bit depth. -/
theorem filled_ignores_audio_config {δ : Type} (D : Device δ) (self1 self2 : USBD_Audio)
    (d : δ) (mem : Mem) (itf buf bufsize : Nat) (h1 : self1._strid = self2._strid)
    (h2 : self1.featureUnitStrIndex = self2.featureUnitStrIndex)
    (h3 : self1.inputTerminalStrIndex = self2.inputTerminalStrIndex)
    (h4 : self1.outputTerminalStrIndex = self2.outputTerminalStrIndex) :
    self1.getInterfaceDescriptor D d mem itf buf bufsize =
      self2.getInterfaceDescriptor D d mem itf buf bufsize ∧
    self1.filled D d mem itf buf bufsize = self2.filled D d mem itf buf bufsize ∧
    (buf ≠ 0 → desc_len ≤ bufsize →
      blockOf (self1.filled D d mem itf buf bufsize) 13 =
        [TUD_AUDIO_DESC_TYPE_I_FORMAT_LEN, TUSB_DESC_CS_INTERFACE,
         AUDIO_CS_AS_INTERFACE_FORMAT_TYPE, AUDIO_FORMAT_TYPE_I, 2, 16] ∧
      fld (blockOf (self1.filled D d mem itf buf bufsize) 13) 4 = 2 ∧
      fld (blockOf (self1.filled D d mem itf buf bufsize) 13) 5 = 16) := by
  have hres : self1.getInterfaceDescriptor D d mem itf buf bufsize =
      self2.getInterfaceDescriptor D d mem itf buf bufsize := by
    simp only [USBD_Audio.getInterfaceDescriptor, descBlocks_congr self1 self2 h1 h2 h3 h4]
  refine ⟨hres, ?_, fun hbuf hsize => ?_⟩
  · simp only [USBD_Audio.filled, hres]
  · rw [filled_eq D self1 d mem itf buf bufsize hbuf hsize]
    simp only [blockOf, decode_descriptorBytes]
    exact ⟨rfl, rfl, rfl⟩

/-- C15, at a concrete input: the sample object (16 bits, internal buffers)
against the same object configured for 8 bits without buffers. -/
theorem filled_ignores_audio_config_witness :
    (sampleObj8._strid = sampleObj._strid ∧
      sampleObj8.featureUnitStrIndex = sampleObj.featureUnitStrIndex ∧
      sampleObj8.inputTerminalStrIndex = sampleObj.inputTerminalStrIndex ∧
      sampleObj8.outputTerminalStrIndex = sampleObj.outputTerminalStrIndex ∧
      sampleObj8.bitDepth = 8 ∧ sampleObj.bitDepth = 16 ∧
      (4096 : Nat) ≠ 0 ∧ desc_len ≤ 182) ∧
    sampleObj8.filled counterDevice (0, 1, 1, 4) rampMem 0 4096 182 =
      sampleObj.filled counterDevice (0, 1, 1, 4) rampMem 0 4096 182 ∧
    fld (blockOf (sampleObj8.filled counterDevice (0, 1, 1, 4) rampMem 0 4096 182) 13) 4 = 2 ∧
    fld (blockOf (sampleObj8.filled counterDevice (0, 1, 1, 4) rampMem 0 4096 182) 13) 5 = 16 :=
  ⟨⟨rfl, rfl, rfl, rfl, rfl, rfl, by decide, by decide⟩,
   (filled_ignores_audio_config counterDevice sampleObj8 sampleObj (0, 1, 1, 4) rampMem 0 4096
     182 rfl rfl rfl rfl).2.1,
   ((filled_ignores_audio_config counterDevice sampleObj8 sampleObj (0, 1, 1, 4) rampMem 0 4096
     182 rfl rfl rfl rfl).2.2 (by decide) (by decide)).2⟩

/-- C16: the code.  The class-specific AudioControl header (block 2) is handed
a total length that counts the feature-unit length once:
8 + 2 * 17 + 2 * 12 + 14 = 80, so its `wTotalLength` field (offset 6, two
bytes) is 89, while the clock-source, terminal and feature-unit blocks emitted
after it (blocks 3 to 9) are 94 bytes long together.  This is so for every
object and allocator, and in the sample fill. -/
theorem filled_total_length_counts_one_feature_unit :
    (∀ (δ : Type) (D : Device δ) (self : USBD_Audio) (d : δ),
      fld (blockOf (descriptorBytes D self d) 2) 2 = AUDIO_CS_AC_INTERFACE_HEADER ∧
      fld16 (blockOf (descriptorBytes D self d) 2) 6 = 80 + TUD_AUDIO_DESC_CS_AC_LEN ∧
      ((List.range 7).map (fun j => (blockOf (descriptorBytes D self d) (3 + j)).length)).sum
        = 94) ∧
    (fld16 (blockOf sampleOut 2) 6 = 89 ∧
     ((List.range 7).map (fun j => (blockOf sampleOut (3 + j)).length)).sum = 94 ∧
     fld16 (blockOf sampleOut 2) 6 ≠ 94 + TUD_AUDIO_DESC_CS_AC_LEN) := by
  refine ⟨fun δ D self d => ?_, ?_⟩
  · simp only [blockOf, decode_descriptorBytes]
    exact ⟨rfl, rfl, rfl⟩
  · rw [sampleOut_eq]
    simp only [blockOf, decode_descriptorBytes]
    decide

/-- C17, as stated, fails: in the sample fill the attribute byte (offset 4) of
the clock-source block (block 3) is 0x01, not 0x05; bit D2 is 0. -/
theorem sample_clock_attribute_not_sof_synced :
    fld (blockOf sampleOut 3) 2 = AUDIO_CS_AC_INTERFACE_CLOCK_SOURCE ∧
    fld (blockOf sampleOut 3) 4 = 0x01 ∧
    fld (blockOf sampleOut 3) 4 ≠ 0x05 ∧
    fld (blockOf sampleOut 3) 4 / 4 % 2 ≠ 1 := by
  rw [sampleOut_eq]
  simp only [blockOf, decode_descriptorBytes]
  decide

/-- C17, amended: in the bytes `out` written by a successful fill, the
attribute byte (offset 4) of the clock-source block (block 3) is 0x01: bits
D1..0 are 01, an internal fixed-rate clock, and bit D2 is 0, not synchronised
to SOF. -/
theorem filled_clock_attribute {δ : Type} (D : Device δ) (self : USBD_Audio) (d : δ)
    (mem : Mem) (itf buf bufsize : Nat) (out : List Nat) (hbuf : buf ≠ 0)
    (hsize : desc_len ≤ bufsize) (hout : out = self.filled D d mem itf buf bufsize) :
    fld (blockOf out 3) 2 = AUDIO_CS_AC_INTERFACE_CLOCK_SOURCE ∧
    fld (blockOf out 3) 4 = 0x01 ∧
    fld (blockOf out 3) 4 % 4 = 1 ∧
    fld (blockOf out 3) 4 / 4 % 2 = 0 := by
  rw [hout, filled_eq D self d mem itf buf bufsize hbuf hsize]
  have hattr : fld (blockOf (descriptorBytes D self d) 3) 4 = 0x01 := by
    simp only [blockOf, decode_descriptorBytes]
    rfl
  have hkind : fld (blockOf (descriptorBytes D self d) 3) 2 =
      AUDIO_CS_AC_INTERFACE_CLOCK_SOURCE := by
    simp only [blockOf, decode_descriptorBytes]
    rfl
  rw [hattr]
  exact ⟨hkind, rfl, by decide, by decide⟩

/-- C17, amended, at the sample fill. -/
theorem filled_clock_attribute_witness :
    ((4096 : Nat) ≠ 0 ∧ desc_len ≤ 182) ∧
    fld (blockOf sampleOut 3) 2 = AUDIO_CS_AC_INTERFACE_CLOCK_SOURCE ∧
    fld (blockOf sampleOut 3) 4 = 0x01 ∧
    fld (blockOf sampleOut 3) 4 % 4 = 1 ∧
    fld (blockOf sampleOut 3) 4 / 4 % 2 = 0 :=
  ⟨⟨by decide, by decide⟩,
   filled_clock_attribute counterDevice sampleObj (0, 1, 1, 4) rampMem 0 4096 182 sampleOut
     (by decide) (by decide) rfl⟩

/-! ## Outbound guard, block walk, interface numbers -/

/-- C18: the code.  The outbound guard tests the pointer `txCount`, not the
count it points to, so with a non-null buffer (address `p + 1`) and a count
cell holding 0 the first transport call of `update` is always a write of 0
bytes; in the concrete call with buffer 2000 and count 0 the transport is
called exactly once, with `write(2000, 0)`. -/
theorem update8_writes_zero_bytes :
    (∀ (σ : Type) (T : Transport σ) (st : σ) (mem : Mem) (p rxBuf rxCount : Nat),
      (update8 T st mem (p + 1) (some 0) rxBuf rxCount).calls.head? =
        some (TransportCall.write (p + 1) 0)) ∧
    (update8 (constTransport 0 []) () rampMem 2000 (some 0) 0 0).calls =
      [TransportCall.write 2000 0] ∧
    (update8 (constTransport 0 []) () rampMem 2000 (some 0) 0 0).calls ≠ [] := by
  refine ⟨fun σ T st mem p rxBuf rxCount => ?_, ?_, ?_⟩
  · have htx : (updateTx T st mem (p + 1) (some 0)).calls =
        [TransportCall.write (p + 1) 0] := by
      simp only [updateTx]
      split_ifs <;> first | rfl | omega
    simp only [update8, updateRx]
    split_ifs <;> simp [htx]
  · decide
  · decide

/-- C19, as stated, fails: walking the bytes of the sample fill by their
length bytes visits 17 blocks, not 18, and ends at offset 182. -/
theorem sample_walk_visits_seventeen_blocks :
    (decode sampleOut).length = 17 ∧
    (decode sampleOut).length ≠ 18 ∧
    ((decode sampleOut).map List.length).sum = 182 := by
  rw [sampleOut_eq]
  simp only [decode_descriptorBytes]
  decide

/-- C19, amended: the bytes `out` written by a successful fill are a
concatenation of length-prefixed blocks: walking them from offset 0 by the
length bytes visits exactly 17 blocks, the first byte of every block is the
length of that block, the blocks put together are `out` again, and the 17
lengths sum to the returned length `desc_len`, which is the length of `out`. -/
theorem filled_is_seventeen_blocks {δ : Type} (D : Device δ) (self : USBD_Audio) (d : δ)
    (mem : Mem) (itf buf bufsize : Nat) (out : List Nat) (hbuf : buf ≠ 0)
    (hsize : desc_len ≤ bufsize) (hout : out = self.filled D d mem itf buf bufsize) :
    (decode out).length = 17 ∧
    (decode out).map (fun b => fld b 0) = (decode out).map List.length ∧
    (decode out).map List.length = [8, 9, 9, 8, 17, 14, 12, 17, 14, 12, 9, 9, 16, 6, 7, 8, 7] ∧
    (decode out).flatten = out ∧
    ((decode out).map List.length).sum = desc_len ∧
    out.length = desc_len ∧
    (self.getInterfaceDescriptor D d mem itf buf bufsize).ret = desc_len := by
  have hret := (getInterfaceDescriptor_fill_eq D self d mem itf buf bufsize hbuf
    (by rw [desc_len_eq] at hsize; exact hsize)).1
  have hflat : (decode (descriptorBytes D self d)).flatten = descriptorBytes D self d := by
    rw [decode_descriptorBytes]
    rfl
  have hlen : (descriptorBytes D self d).length = 182 := descBlocks_length _ _ _ _ _ _ _
  rw [hout, filled_eq D self d mem itf buf bufsize hbuf hsize, hret, desc_len_eq, hflat, hlen]
  simp only [decode_descriptorBytes]
  have hmap : ∀ a b c e f g, (descBlocks self a b c e f g).map List.length =
      [8, 9, 9, 8, 17, 14, 12, 17, 14, 12, 9, 9, 16, 6, 7, 8, 7] := fun _ _ _ _ _ _ => rfl
  refine ⟨rfl, rfl, hmap _ _ _ _ _ _, trivial, ?_, trivial, trivial⟩
  rw [hmap]
  rfl

/-- C19, amended, at the sample fill. -/
theorem filled_is_seventeen_blocks_witness :
    ((4096 : Nat) ≠ 0 ∧ desc_len ≤ 182) ∧
    (decode sampleOut).length = 17 ∧
    (decode sampleOut).flatten = sampleOut ∧
    ((decode sampleOut).map List.length).sum = desc_len :=
  ⟨⟨by decide, by decide⟩,
   (filled_is_seventeen_blocks counterDevice sampleObj (0, 1, 1, 4) rampMem 0 4096 182
     sampleOut (by decide) (by decide) rfl).1,
   (filled_is_seventeen_blocks counterDevice sampleObj (0, 1, 1, 4) rampMem 0 4096 182
     sampleOut (by decide) (by decide) rfl).2.2.2.1,
   (filled_is_seventeen_blocks counterDevice sampleObj (0, 1, 1, 4) rampMem 0 4096 182
     sampleOut (by decide) (by decide) rfl).2.2.2.2.1⟩

/-- C20: the code.  With `f` the (8-bit) interface number the allocator
answers, the interface association block (block 0) declares first interface
`f` and count 2 and the AudioControl interface block (block 1) carries `f`, but
both AudioStreaming interface blocks (blocks 10 and 11, alternate settings 0
and 1) carry `f` as well, not `f + 1`.  In the sample fill, where the allocator
hands out 0 and 1, every interface block carries number 0 and none carries
1. -/
theorem filled_streaming_interface_reuses_number :
    (∀ (δ : Type) (D : Device δ) (self : USBD_Audio) (d : δ),
      (fld (blockOf (descriptorBytes D self d) 0) 1 = TUSB_DESC_INTERFACE_ASSOCIATION ∧
       fld (blockOf (descriptorBytes D self d) 0) 2 = u8 (D.allocInterface d 2).1 ∧
       fld (blockOf (descriptorBytes D self d) 0) 3 = 2) ∧
      (fld (blockOf (descriptorBytes D self d) 1) 1 = TUSB_DESC_INTERFACE ∧
       fld (blockOf (descriptorBytes D self d) 1) 6 = AUDIO_SUBCLASS_CONTROL ∧
       fld (blockOf (descriptorBytes D self d) 1) 2 = u8 (D.allocInterface d 2).1) ∧
      (fld (blockOf (descriptorBytes D self d) 10) 1 = TUSB_DESC_INTERFACE ∧
       fld (blockOf (descriptorBytes D self d) 10) 6 = AUDIO_SUBCLASS_STREAMING ∧
       fld (blockOf (descriptorBytes D self d) 10) 3 = 0 ∧
       fld (blockOf (descriptorBytes D self d) 10) 2 = u8 (D.allocInterface d 2).1) ∧
      (fld (blockOf (descriptorBytes D self d) 11) 1 = TUSB_DESC_INTERFACE ∧
       fld (blockOf (descriptorBytes D self d) 11) 6 = AUDIO_SUBCLASS_STREAMING ∧
       fld (blockOf (descriptorBytes D self d) 11) 3 = 1 ∧
       fld (blockOf (descriptorBytes D self d) 11) 2 = u8 (D.allocInterface d 2).1)) ∧
    ((counterDevice.allocInterface (0, 1, 1, 4) 2).1 = 0 ∧
     fld (blockOf sampleOut 10) 2 = 0 ∧ fld (blockOf sampleOut 10) 2 ≠ 0 + 1 ∧
     fld (blockOf sampleOut 11) 2 = 0 ∧ fld (blockOf sampleOut 11) 2 ≠ 0 + 1 ∧
     ((decode sampleOut).filter (fun b => fld b 1 = TUSB_DESC_INTERFACE)).map
       (fun b => fld b 2) = [0, 0, 0]) := by
  have hu : ∀ x, u8 (u8 x) = u8 x := fun x => Nat.mod_mod x 256
  refine ⟨fun δ D self d => ?_, ?_⟩
  · simp only [blockOf, decode_descriptorBytes]
    exact ⟨⟨rfl, hu _, rfl⟩, ⟨rfl, rfl, hu _⟩, ⟨rfl, rfl, rfl, hu _⟩, ⟨rfl, rfl, rfl, hu _⟩⟩
  · rw [sampleOut_eq]
    simp only [blockOf, decode_descriptorBytes]
    decide

/-! ## Runs of the no-argument update -/

theorem constTransport_writeWithin (data : List Nat) : WriteWithin (constTransport 0 data) := by
  intro st mem buf len
  exact Nat.zero_le len

/-- One no-argument `update()` on an object with both buffer pointers assigned
and both counters at 0, over a transport whose write stays within its offer:
it returns false, leaves the object and the memory as they were, and the only
transport call it can make is a write of 0 bytes. -/
theorem update_of_zero_counters {σ : Type} (T : Transport σ) (hW : WriteWithin T)
    (o : USBD_Audio) (tb rb : Nat) (htx : o.txBuffer = some tb) (hrx : o.rxBuffer = some rb)
    (h0 : o.txBufCount = 0) (h1 : o.rxBufCount = 0) (st : σ) (mem : Mem) :
    ∃ r, o.update T st mem = some r ∧ r.obj = o ∧ r.ok = false ∧ r.mem = mem ∧
      r.calls = if tb ≠ 0 then [TransportCall.write tb 0] else [] := by
  have hz : u32 (0 * 2) = 0 := rfl
  have hrxskip : ∀ r : UpdateResult σ, updateRx T r rb 0 = r := fun r => by simp [updateRx]
  cases o
  simp only at htx hrx h0 h1
  subst htx hrx h0 h1
  simp only [USBD_Audio.update, update16, hz, update8, hrxskip]
  by_cases htb : tb = 0
  · subst htb
    simp only [updateTx, ne_eq, not_true_eq_false, if_false, Option.map_some', Nat.zero_div,
      Option.getD_some]
    exact ⟨_, rfl, rfl, rfl, rfl, rfl⟩
  · have hw0 : (T.tud_audio_write st mem tb 0).1 = 0 := Nat.le_zero.mp (hW st mem tb 0)
    have hu0 : u32 0 = 0 := rfl
    simp only [updateTx, ne_eq, htb, not_false_eq_true, if_true, hw0, hu0, Option.map_some',
      Nat.zero_div, Option.getD_some]
    exact ⟨_, rfl, rfl, rfl, rfl, rfl⟩

/-- The constructor, for a non-zero buffer depth, assigns both buffer pointers
and starts both counters at 0. -/
theorem ctor_internal_buffers {δ : Type} (D : Device δ) (d : δ)
    (strid mallocTx mallocRx c b n : Nat) (hn : 0 < n) (hn2 : n < 65536) :
    (USBD_Audio.ctor D d strid mallocTx mallocRx c b n).obj.txBuffer = some mallocTx ∧
    (USBD_Audio.ctor D d strid mallocTx mallocRx c b n).obj.rxBuffer = some mallocRx ∧
    (USBD_Audio.ctor D d strid mallocTx mallocRx c b n).obj.txBufCount = 0 ∧
    (USBD_Audio.ctor D d strid mallocTx mallocRx c b n).obj.rxBufCount = 0 := by
  have hne : u16 n ≠ 0 := by
    unfold u16
    rw [Nat.mod_eq_of_lt hn2]
    omega
  simp only [USBD_Audio.ctor, ne_eq, hne, not_false_eq_true, if_true, and_self]

/-- C21: for an object `o` constructed with a buffer sample depth `n > 0` and a
transport whose write never reports more bytes accepted than offered, in every
run of no-argument `update()` calls (whatever transport state and memory each
call finds) every call returns, with the result false, leaves the object as
constructed, so `txBufCount = 0` and `rxBufCount = 0` in every reachable
state, leaves every byte of memory, hence of the internal rx and tx buffers,
unchanged, and makes no transport read. -/
theorem update_noarg_counters_stay_zero {δ σ : Type} (D : Device δ) (T : Transport σ) (d : δ)
    (strid mallocTx mallocRx c b n : Nat) (o : USBD_Audio) (envs : List (σ × Mem))
    (hn : 0 < n) (hn2 : n < 65536) (hW : WriteWithin T)
    (ho : o = (USBD_Audio.ctor D d strid mallocTx mallocRx c b n).obj) :
    List.Forall₂
      (fun env res => ∃ r : UpdateObjResult σ, res = some r ∧ r.obj = o ∧
        r.obj.txBufCount = 0 ∧ r.obj.rxBufCount = 0 ∧ r.ok = false ∧ r.mem = env.2 ∧
        ∀ bf len, TransportCall.read bf len ∉ r.calls)
      envs (updateSeq T o envs) := by
  obtain ⟨htx, hrx, h0, h1⟩ := ctor_internal_buffers D d strid mallocTx mallocRx c b n hn hn2
  rw [← ho] at htx hrx h0 h1
  induction envs with
  | nil => exact List.Forall₂.nil
  | cons env envs ih =>
    obtain ⟨r, hr, hobj, hok, hmem, hcalls⟩ :=
      update_of_zero_counters T hW o mallocTx mallocRx htx hrx h0 h1 env.1 env.2
    simp only [updateSeq, hr]
    refine List.Forall₂.cons ⟨r, rfl, hobj, ?_, ?_, hok, hmem, fun bf len hmemb => ?_⟩ ?_
    · rw [hobj]
      exact h0
    · rw [hobj]
      exact h1
    · rw [hcalls] at hmemb
      split_ifs at hmemb <;> simp at hmemb
    · rw [hobj]
      exact ih

/-- C21, at a concrete input: the object constructed with (1, 16, 32) and
buffers at 2000 and 1000, a transport that accepts nothing, three calls. -/
theorem update_noarg_counters_stay_zero_witness :
    ((0 < 32 ∧ 32 < 65536) ∧
      sampleObj = (USBD_Audio.ctor counterDevice (0, 1, 1, 4) 0 2000 1000 1 16 32).obj) ∧
    List.Forall₂
      (fun env res => ∃ r : UpdateObjResult Unit, res = some r ∧ r.obj = sampleObj ∧
        r.obj.txBufCount = 0 ∧ r.obj.rxBufCount = 0 ∧ r.ok = false ∧ r.mem = env.2 ∧
        ∀ bf len, TransportCall.read bf len ∉ r.calls)
      [((), rampMem), ((), rampMem), ((), rampMem)]
      (updateSeq (constTransport 0 [7]) sampleObj [((), rampMem), ((), rampMem), ((), rampMem)]) :=
  ⟨⟨⟨by decide, by decide⟩, by decide⟩,
   update_noarg_counters_stay_zero counterDevice (constTransport 0 [7]) (0, 1, 1, 4) 0 2000 1000
     1 16 32 sampleObj [((), rampMem), ((), rampMem), ((), rampMem)] (by decide) (by decide)
     (constTransport_writeWithin [7]) (by decide)⟩

end USBDAudio
